import Mathlib

set_option allowUnsafeReducibility true
attribute [semireducible] Rat.ofScientific Rat.mul Rat.inv Rat.add Rat.sub Rat.neg Rat.div

set_option maxRecDepth 100000

set_option maxHeartbeats 1000000

/-!
Verification development for the AD-HTC gas-cycle application
(`ad_htc_app.py`).  The thermodynamic core consists of three functions:
`calculate_steam_cycle` (Rankine cycle), `calculate_gas_cycle_THdot`
(Brayton cycle with process-path traces) and `biomass_outputs` (linear
mass router).  The CoolProp property backend (`CP.PropsSI`) is external;
it is modelled as a record of partial query functions over exact
rationals.  Python floating point is modelled by exact rational
arithmetic; a Python `ZeroDivisionError` (raised when a float is divided
by zero) and a CoolProp exception are both modelled as failure of the
computation.  Each backend query is counted, so that bounds on the
number of property queries can be stated.
-/

namespace AdHtc

/-- Computation monad of the solvers: an optional result (failure models a
propagated Python exception, caught by the caller's generic handler)
together with the number of property-backend queries executed. -/
def M (α : Type) : Type := Option α × Nat

namespace M

/-- Monadic unit: no failure, no queries. -/
def pure (a : α) : M α := (some a, 0)

/-- Sequencing: a failure aborts the rest of the computation (Python
exception propagation); query counts accumulate. -/
def bind (m : M α) (f : α → M β) : M β :=
  match m with
  | (some a, n) => ((f a).1, n + (f a).2)
  | (none, n) => (none, n)

end M

instance : Monad M where
  pure := M.pure
  bind := M.bind

/-- One `CP.PropsSI` call: the backend either answers or raises. -/
def query (o : Option ℚ) : M ℚ := (o, 1)

/-- Python float division: raises `ZeroDivisionError` on a zero divisor.
Not a backend query, so the count is unchanged. -/
def qdiv (a b : ℚ) : M ℚ := (if b = 0 then none else Option.some (a / b), 0)

/-- Monadic map used for the sampling loops (list comprehensions over
`np.linspace` arrays in the source). -/
def mmap (f : α → M β) : List α → M (List β)
  | [] => M.pure []
  | a :: l => M.bind (f a) fun b => M.bind (mmap f l) fun l2 => M.pure (b :: l2)

/-- Exact rational model of `np.linspace(a, b, n)`. -/
def linspace (a b : ℚ) (n : ℕ) : List ℚ :=
  (List.range n).map fun i : ℕ => a + (i : ℚ) * (b - a) / ((n : ℚ) - 1)

/-- Property backend interface (contract of `CP.PropsSI`): each field is
one supported (output, input-pair) combination, a partial function of the
two input values for a fixed working fluid.  `none` models a CoolProp
domain error. -/
structure Props where
  H_PQ : ℚ → ℚ → Option ℚ
  S_PQ : ℚ → ℚ → Option ℚ
  D_PQ : ℚ → ℚ → Option ℚ
  T_PQ : ℚ → ℚ → Option ℚ
  S_PH : ℚ → ℚ → Option ℚ
  T_PH : ℚ → ℚ → Option ℚ
  H_PT : ℚ → ℚ → Option ℚ
  S_PT : ℚ → ℚ → Option ℚ
  H_PS : ℚ → ℚ → Option ℚ
  D_PT : ℚ → ℚ → Option ℚ
  Pcrit : Option ℚ

/-- Result record of `calculate_steam_cycle` (string state labels are
omitted; all other returned values are kept). -/
structure SteamResult where
  h_cycle : List ℚ
  s_cycle : List ℚ
  sf : List ℚ
  hf : List ℚ
  sg : List ℚ
  hg : List ℚ
  pump_w : ℚ
  boiler_q : ℚ
  turb_w : ℚ
  cond_q : ℚ
  net_w : ℚ
  eta : ℚ
  T_C : List ℚ
  P_kPa : List ℚ
  h_kJ : List ℚ
  s_kJ : List ℚ

/-- Saturation-dome pressure samples, `np.linspace(700, Pcrit*0.9995, 300)`
in the source. -/
def P_sat_arr (pcrit : ℚ) : List ℚ := linspace 700 (pcrit * 0.9995) 300

/-- Shallow embedding of `calculate_steam_cycle` (source lines 92-148).
Every `CP.PropsSI` call is a `query` in source order; Python float
division is `qdiv`. -/
def calculate_steam_cycle (B : Props)
    (P_cond_kPa P_boiler_kPa T_boiler_C pump_eff_pct turb_eff_pct : ℚ) :
    M SteamResult := do
  let P1 := P_cond_kPa * 1000
  let P2 := P_boiler_kPa * 1000
  let T3 := T_boiler_C + 273.15
  let eta_p := pump_eff_pct / 100
  let eta_t := turb_eff_pct / 100
  let h1 ← query (B.H_PQ P1 0)
  let s1 ← query (B.S_PQ P1 0)
  let d1 ← query (B.D_PQ P1 0)
  let v1 ← qdiv 1 d1
  let T1 ← query (B.T_PQ P1 0)
  let T1 := T1 - 273.15
  let h2s := h1 + v1 * (P2 - P1)
  let dh2 ← qdiv (h2s - h1) eta_p
  let h2 := h1 + dh2
  let s2 ← query (B.S_PH P2 h2)
  let T2 ← query (B.T_PH P2 h2)
  let T2 := T2 - 273.15
  let h3 ← query (B.H_PT P2 T3)
  let s3 ← query (B.S_PT P2 T3)
  let h4s ← query (B.H_PS P1 s3)
  let h4 := h3 - (h3 - h4s) * eta_t
  let s4 ← query (B.S_PH P1 h4)
  let T4 ← query (B.T_PH P1 h4)
  let T4 := T4 - 273.15
  let pcrit ← query B.Pcrit
  let Psat := P_sat_arr pcrit
  let hf ← mmap (fun p => M.bind (query (B.H_PQ p 0)) fun x => M.pure (x / 1000)) Psat
  let sf ← mmap (fun p => M.bind (query (B.S_PQ p 0)) fun x => M.pure (x / 1000)) Psat
  let hg ← mmap (fun p => M.bind (query (B.H_PQ p 1)) fun x => M.pure (x / 1000)) Psat
  let sg ← mmap (fun p => M.bind (query (B.S_PQ p 1)) fun x => M.pure (x / 1000)) Psat
  let pump_w := (h2 - h1) / 1000
  let boiler_q := (h3 - h2) / 1000
  let turb_w := (h3 - h4) / 1000
  let cond_q := (h4 - h1) / 1000
  let net_w := turb_w - pump_w
  let eta0 ← qdiv net_w boiler_q
  let eta := eta0 * 100
  M.pure {
    h_cycle := [h1 / 1000, h2 / 1000, h3 / 1000, h4 / 1000, h1 / 1000]
    s_cycle := [s1 / 1000, s2 / 1000, s3 / 1000, s4 / 1000, s1 / 1000]
    sf := sf, hf := hf, sg := sg, hg := hg
    pump_w := pump_w, boiler_q := boiler_q, turb_w := turb_w
    cond_q := cond_q, net_w := net_w, eta := eta
    T_C := [T1, T2, T_boiler_C, T4]
    P_kPa := [P_cond_kPa, P_boiler_kPa, P_boiler_kPa, P_cond_kPa]
    h_kJ := [h1 / 1000, h2 / 1000, h3 / 1000, h4 / 1000]
    s_kJ := [s1 / 1000, s2 / 1000, s3 / 1000, s4 / 1000] }

/-- Shallow embedding of `biomass_outputs` (source lines 254-260): the
five outputs `(m_rich, m_lean, m_bio, m_char, m_vol)`. -/
def biomass_outputs (m_total moist_pct ad_eff_pct htc_conv_pct : ℚ) :
    ℚ × ℚ × ℚ × ℚ × ℚ :=
  let m_rich := m_total * moist_pct / 100
  let m_lean := m_total * (1 - moist_pct / 100)
  let m_bio := m_total * ad_eff_pct / 100
  let m_char := m_lean * htc_conv_pct / 100
  let m_vol := m_lean * (1 - htc_conv_pct / 100)
  (m_rich, m_lean, m_bio, m_char, m_vol)

/-- Result record of `calculate_gas_cycle_THdot` (string state labels and
trace colours are omitted; each process trace is kept as a list of
cumulative-enthalpy-rate/temperature sample pairs). -/
structure GasResult where
  HT12 : List (ℚ × ℚ)
  HT23 : List (ℚ × ℚ)
  HT34 : List (ℚ × ℚ)
  HT41 : List (ℚ × ℚ)
  h_states : List ℚ
  T_states : List ℚ
  comp_w : ℚ
  heat_in : ℚ
  turb_w : ℚ
  net_w : ℚ
  bwr : ℚ
  eta : ℚ
  T_C : List ℚ
  P_kPa : List ℚ
  h_kJ : List ℚ
  s_kJ : List ℚ

/-- Compression-leg trace, source lines 183-192: pressures from
`np.linspace(P1, P2, N)`, enthalpy interpolated linearly in the
log-pressure fraction, temperature queried at each sample.  `lg` models
`np.log`. -/
def leg12 (B : Props) (lg : ℚ → ℚ) (P1 P2 h1 h2 m_dot : ℚ) (N : ℕ) :
    M (List (ℚ × ℚ)) :=
  mmap (fun P_i =>
    M.bind (qdiv (lg P_i - lg P1) (lg P2 - lg P1)) fun frac =>
      let h_i := h1 + frac * (h2 - h1)
      M.bind (query (B.T_PH P_i h_i)) fun T_i =>
        M.pure ((h_i - h1) * m_dot / 1000, T_i - 273.15)) (linspace P1 P2 N)

/-- Heat-addition-leg trace, source lines 195-201: temperatures from
`np.linspace(T2, T3, N2)` at constant pressure `P2`, enthalpy queried at
each sample. -/
def leg23 (B : Props) (P2 h1 m_dot T2 T3 : ℚ) (N2 : ℕ) : M (List (ℚ × ℚ)) :=
  mmap (fun T_i =>
    M.bind (query (B.H_PT P2 T_i)) fun h_i =>
      M.pure ((h_i - h1) * m_dot / 1000, T_i - 273.15)) (linspace T2 T3 N2)

/-- Expansion-leg trace, source lines 204-211: pressures from
`np.linspace(P2, P1, N)`, enthalpy interpolated linearly in the
log-pressure fraction from `h3` down to `h4`. -/
def leg34 (B : Props) (lg : ℚ → ℚ) (P1 P2 h1 h3 h4 m_dot : ℚ) (N : ℕ) :
    M (List (ℚ × ℚ)) :=
  mmap (fun P_i =>
    M.bind (qdiv (lg P2 - lg P_i) (lg P2 - lg P1)) fun frac =>
      let h_i := h3 - frac * (h3 - h4)
      M.bind (query (B.T_PH P_i h_i)) fun T_i =>
        M.pure ((h_i - h1) * m_dot / 1000, T_i - 273.15)) (linspace P2 P1 N)

/-- Heat-rejection-leg trace, source lines 214-219: temperatures from
`np.linspace(T4, T1, N)` at constant pressure `P1`. -/
def leg41 (B : Props) (P1 h1 m_dot T4 T1 : ℚ) (N : ℕ) : M (List (ℚ × ℚ)) :=
  mmap (fun T_i =>
    M.bind (query (B.H_PT P1 T_i)) fun h_i =>
      M.pure ((h_i - h1) * m_dot / 1000, T_i - 273.15)) (linspace T4 T1 N)

/-- Shallow embedding of `calculate_gas_cycle_THdot` (source lines
151-251).  The sample counts are hard-coded in the source as `N = 60` and
`N2 = 80`; they are parameters here because the specification quantifies
over sample counts, and every theorem about the source instance uses
`60` and `80`.  `lg` models `np.log`. -/
def calculate_gas_cycle_THdot (B : Props) (lg : ℚ → ℚ) (N N2 : ℕ)
    (pr T1_C T3_C eta_c eta_t m_dot : ℚ) : M GasResult := do
  let T1 := T1_C + 273.15
  let T3 := T3_C + 273.15
  let P1 : ℚ := 101325
  let P2 := P1 * pr
  let ec := eta_c / 100
  let et := eta_t / 100
  let h1 ← query (B.H_PT P1 T1)
  let s1 ← query (B.S_PT P1 T1)
  let h2s ← query (B.H_PS P2 s1)
  let dh ← qdiv (h2s - h1) ec
  let h2 := h1 + dh
  let T2 ← query (B.T_PH P2 h2)
  let s2 ← query (B.S_PH P2 h2)
  let h3 ← query (B.H_PT P2 T3)
  let s3 ← query (B.S_PT P2 T3)
  let h4s ← query (B.H_PS P1 s3)
  let h4 := h3 - (h3 - h4s) * et
  let T4 ← query (B.T_PH P1 h4)
  let s4 ← query (B.S_PH P1 h4)
  let HT12 ← leg12 B lg P1 P2 h1 h2 m_dot N
  let HT23 ← leg23 B P2 h1 m_dot T2 T3 N2
  let HT34 ← leg34 B lg P1 P2 h1 h3 h4 m_dot N
  let HT41 ← leg41 B P1 h1 m_dot T4 T1 N
  let comp_w := (h2 - h1) * m_dot / 1000
  let heat_in := (h3 - h2) * m_dot / 1000
  let turb_w := (h3 - h4) * m_dot / 1000
  let net_w := turb_w - comp_w
  let bwr0 ← qdiv comp_w turb_w
  let bwr := bwr0 * 100
  let eta0 ← qdiv net_w heat_in
  let eta := eta0 * 100
  M.pure {
    HT12 := HT12, HT23 := HT23, HT34 := HT34, HT41 := HT41
    h_states := [0, (h2 - h1) * m_dot / 1000, (h3 - h1) * m_dot / 1000,
      (h4 - h1) * m_dot / 1000]
    T_states := [T1_C, T2 - 273.15, T3_C, T4 - 273.15]
    comp_w := comp_w, heat_in := heat_in, turb_w := turb_w
    net_w := net_w, bwr := bwr, eta := eta
    T_C := [T1_C, T2 - 273.15, T3_C, T4 - 273.15]
    P_kPa := [P1 / 1000, P2 / 1000, P2 / 1000, P1 / 1000]
    h_kJ := [h1 / 1000, h2 / 1000, h3 / 1000, h4 / 1000]
    s_kJ := [s1 / 1000, s2 / 1000, s3 / 1000, s4 / 1000] }

/-- Backend answering every query with the same constant: used to exhibit
solver behaviour that is independent of any input validation. -/
def constProps (c : ℚ) : Props where
  H_PQ := fun _ _ => some c
  S_PQ := fun _ _ => some c
  D_PQ := fun _ _ => some c
  T_PQ := fun _ _ => some c
  S_PH := fun _ _ => some c
  T_PH := fun _ _ => some c
  H_PT := fun _ _ => some c
  S_PT := fun _ _ => some c
  H_PS := fun _ _ => some c
  D_PT := fun _ _ => some c
  Pcrit := some c

/-- Backend used for concrete gas-cycle and steam-cycle runs: enthalpy
queries distinguish the ambient pressure 101325 Pa from all others, which
makes the derived efficiency of the standard gas scenario negative. -/
def gasProps : Props where
  H_PQ := fun _ _ => some 1
  S_PQ := fun _ _ => some 1
  D_PQ := fun _ _ => some 1
  T_PQ := fun _ _ => some 1
  S_PH := fun _ _ => some 1
  T_PH := fun _ _ => some 300
  H_PT := fun P _ => if P = 101325 then some 0 else some 50
  S_PT := fun _ _ => some 1
  H_PS := fun P _ => if P = 101325 then some 45 else some 20
  D_PT := fun _ _ => some 1
  Pcrit := some 1

/-- Variant of `gasProps` with a large critical pressure, so that the
saturation-dome pressure ramp is increasing. -/
def domeProps : Props := { gasProps with Pcrit := some 1000000 }

/-- An equation-of-state-consistent backend: enthalpy-from-temperature
and temperature-from-enthalpy are mutually inverse at every pressure. -/
def consProps : Props where
  H_PQ := fun _ _ => some 1
  S_PQ := fun _ _ => some 1
  D_PQ := fun _ _ => some 1
  T_PQ := fun _ _ => some 1
  S_PH := fun _ _ => some 1
  T_PH := fun _ h => some h
  H_PT := fun _ T => some T
  S_PT := fun _ _ => some 1
  H_PS := fun _ _ => some 1
  D_PT := fun _ _ => some 1
  Pcrit := some 1

/-- Backend whose temperature-at-(P,H) query returns its pressure
argument, exposing the solver's sampled pressures through the reported
trace temperatures. -/
def exposeProps : Props where
  H_PQ := fun _ _ => some 1
  S_PQ := fun _ _ => some 1
  D_PQ := fun _ _ => some 1
  T_PQ := fun _ _ => some 1
  S_PH := fun _ _ => some 1
  T_PH := fun P _ => some P
  H_PT := fun _ _ => some 0
  S_PT := fun _ _ => some 1
  H_PS := fun _ _ => some 1
  D_PT := fun _ _ => some 1
  Pcrit := some 1

/-- Backend distinguishing the isentropic-enthalpy query from any
linearized estimate: `H(P,S)` is 7 while `H(P,T)` is 0 and density is 1. -/
def linProps : Props where
  H_PQ := fun _ _ => some 1
  S_PQ := fun _ _ => some 1
  D_PQ := fun _ _ => some 1
  T_PQ := fun _ _ => some 1
  S_PH := fun _ _ => some 1
  T_PH := fun _ _ => some 300
  H_PT := fun _ _ => some 0
  S_PT := fun _ _ => some 1
  H_PS := fun _ _ => some 7
  D_PT := fun _ _ => some 1
  Pcrit := some 1

/-- Presentation-layer clamp applied to the displayed efficiencies
(`max(0, eff)` at the dashboard metrics and the performance table in the
source); it is not part of either solver. -/
def displayEff (eff : ℚ) : ℚ := max 0 eff

/-- Equation-of-state consistency of a backend (the data-model invariant
of the specification): at a fixed pressure, enthalpy-from-temperature and
temperature-from-enthalpy queries are mutually inverse where defined. -/
def Consistent (B : Props) : Prop :=
  (∀ P T h, B.H_PT P T = some h → B.T_PH P h = some T) ∧
  (∀ P h T, B.T_PH P h = some T → B.H_PT P T = some h)

/-- Modelled from the spec: sampling a count of points along a
logarithmic pressure interpolation between two pressures, i.e. uniform
spacing in log-pressure (the claimed sampling rule for the Brayton
compression and expansion legs). -/
noncomputable def logspaceSpec (a b : ℝ) (n : ℕ) : List ℝ :=
  (List.range n).map fun i : ℕ =>
    Real.exp (Real.log a + (i : ℝ) * (Real.log b - Real.log a) / ((n : ℝ) - 1))

/-- Modelled from the spec: the claimed linearized incompressible ideal
compressor-outlet enthalpy for the gas cycle, `h2s = h1 + v1*(P2 - P1)`
with `v1 = 1/rho(P1, T1)` (the gas solver itself performs no density
query at all). -/
def gasLinearizedH2s (B : Props) (pr T1_C : ℚ) : Option ℚ :=
  match B.H_PT 101325 (T1_C + 273.15), B.D_PT 101325 (T1_C + 273.15) with
  | some h1, some d1 => some (h1 + 1 / d1 * (101325 * pr - 101325))
  | _, _ => none

theorem bind_eq (m : M α) (f : α → M β) : m >>= f = M.bind m f := rfl

theorem pure_eq (a : α) : (Pure.pure a : M α) = M.pure a := rfl

@[simp] theorem query_fst (o : Option ℚ) : (query o).1 = o := rfl

@[simp] theorem query_snd (o : Option ℚ) : (query o).2 = 1 := rfl

theorem qdiv_fst_eq (a b : ℚ) :
    (qdiv a b).1 = if b = 0 then none else Option.some (a / b) := rfl

@[simp] theorem qdiv_snd (a b : ℚ) : (qdiv a b).2 = 0 := rfl

@[simp] theorem pure_fst (a : α) : (M.pure a).1 = some a := rfl

@[simp] theorem pure_snd (a : α) : (M.pure a).2 = 0 := rfl

/-- Inversion: a successful `bind` has a successful head and continuation. -/
theorem bind_fst {m : M α} {f : α → M β} {b : β} (h : (M.bind m f).1 = some b) :
    ∃ a, m.1 = some a ∧ (f a).1 = some b := by
  obtain ⟨o, n⟩ := m
  cases o with
  | none => simp [M.bind] at h
  | some a => exact ⟨a, rfl, by simpa [M.bind] using h⟩

/-- Forward reasoning: success of head and continuation gives success of `bind`. -/
theorem bind_fst_of {m : M α} {f : α → M β} {a : α} (hm : m.1 = some a) {b : β}
    (hb : (f a).1 = some b) : (M.bind m f).1 = some b := by
  obtain ⟨o, n⟩ := m
  cases o with
  | none => simp at hm
  | some x =>
    obtain rfl : x = a := by simpa using hm
    simpa [M.bind] using hb

theorem qdiv_fst_some {a b c : ℚ} (h : (qdiv a b).1 = some c) : b ≠ 0 ∧ c = a / b := by
  by_cases hb : b = 0
  · simp [qdiv, hb] at h
  · refine ⟨hb, ?_⟩
    simp [qdiv, hb] at h
    exact h.symm

theorem qdiv_fst_of {a b : ℚ} (hb : b ≠ 0) : (qdiv a b).1 = some (a / b) := by
  simp [qdiv, hb]

theorem pure_fst_some {a b : α} (h : (M.pure a).1 = some b) : b = a := by
  simpa [M.pure] using h.symm

/-- Query-count bound for `bind`. -/
theorem bind_snd_le (c1 c2 : ℕ) {m : M α} {f : α → M β} (h1 : m.2 ≤ c1)
    (h2 : ∀ a, (f a).2 ≤ c2) : (M.bind m f).2 ≤ c1 + c2 := by
  obtain ⟨o, n⟩ := m
  cases o with
  | none => exact le_trans h1 (Nat.le_add_right c1 c2)
  | some a => exact Nat.add_le_add h1 (h2 a)

/-- Query-count bound for the sampling loops. -/
theorem mmap_snd_le (c : ℕ) {f : α → M β} (hf : ∀ a, (f a).2 ≤ c) :
    ∀ l : List α, (mmap f l).2 ≤ l.length * c := by
  intro l
  induction l with
  | nil => simp [mmap, M.pure]
  | cons a l ih =>
    have h2 : ∀ b : β, (M.bind (mmap f l) fun l2 => M.pure (b :: l2)).2 ≤ l.length * c := by
      intro b
      have h0 : ∀ l2 : List β, (M.pure (b :: l2) : M (List β)).2 ≤ 0 :=
        fun l2 => le_of_eq (pure_snd (b :: l2))
      simpa using bind_snd_le (l.length * c) 0 ih h0
    have h3 := bind_snd_le c (l.length * c) (hf a) h2
    calc (mmap f (a :: l)).2 ≤ c + l.length * c := h3
    _ = (a :: l).length * c := by simp [List.length_cons, Nat.succ_mul, Nat.add_comm]

/-- Inversion of a successful sampling loop: outputs are pointwise
successful images of the inputs. -/
theorem mmap_fst_forall2 {f : α → M β} :
    ∀ {l : List α} {ys : List β}, (mmap f l).1 = some ys →
      List.Forall₂ (fun a y => (f a).1 = some y) l ys := by
  intro l
  induction l with
  | nil =>
    intro ys h
    obtain rfl : ys = [] := pure_fst_some h
    exact List.Forall₂.nil
  | cons a l ih =>
    intro ys h
    obtain ⟨b, hb, h⟩ := bind_fst h
    obtain ⟨l2, hl2, h⟩ := bind_fst h
    obtain rfl : ys = b :: l2 := pure_fst_some h
    exact List.Forall₂.cons hb (ih hl2)

/-- Forward success of a sampling loop from pointwise success. -/
theorem mmap_fst_of {f : α → M β} {g : α → β} :
    ∀ {l : List α}, (∀ a ∈ l, (f a).1 = some (g a)) →
      (mmap f l).1 = some (l.map g) := by
  intro l
  induction l with
  | nil => intro _; rfl
  | cons a l ih =>
    intro h
    refine bind_fst_of (h a (List.mem_cons_self a l)) ?_
    refine bind_fst_of (ih fun x hx => h x (List.mem_cons_of_mem a hx)) ?_
    rfl

theorem linspace_length (a b : ℚ) (n : ℕ) : (linspace a b n).length = n := by
  simp [linspace]

theorem linspace_head {a b : ℚ} {n : ℕ} (hn : 1 ≤ n) :
    (linspace a b n).head? = some a := by
  unfold linspace
  rw [List.head?_map, List.head?_range]
  have : ¬ n = 0 := by omega
  simp [this]

theorem linspace_getLast {a b : ℚ} {n : ℕ} (hn : 2 ≤ n) :
    (linspace a b n).getLast? = some b := by
  unfold linspace
  rw [List.getLast?_map, List.getLast?_range]
  have h0 : ¬ n = 0 := by omega
  have hk : ((n : ℚ) - 1) ≠ 0 := by
    have : (2 : ℚ) ≤ (n : ℚ) := by exact_mod_cast hn
    linarith
  have hc : ((n - 1 : ℕ) : ℚ) = (n : ℚ) - 1 := by
    have : 1 ≤ n := by omega
    push_cast [this]
    ring
  simp only [h0, if_false, Option.map_some']
  rw [hc]
  congr 1
  field_simp

theorem linspace_getD {a b : ℚ} {n i : ℕ} (hi : i < n) :
    (linspace a b n).getD i 0 = a + (i : ℚ) * (b - a) / ((n : ℚ) - 1) := by
  unfold linspace
  rw [List.getD_eq_getElem?_getD, List.getElem?_map, List.getElem?_range hi]
  rfl

theorem linspace_pairwise {a b : ℚ} {n : ℕ} (hab : a < b) (hn : 2 ≤ n) :
    List.Pairwise (· < ·) (linspace a b n) := by
  unfold linspace
  refine List.Pairwise.map _ ?_ (List.pairwise_lt_range n)
  intro i j hij
  have hd : (0 : ℚ) < (n : ℚ) - 1 := by
    have : (2 : ℚ) ≤ (n : ℚ) := by exact_mod_cast hn
    linarith
  have hij' : (i : ℚ) < (j : ℚ) := by exact_mod_cast hij
  have hmul : (i : ℚ) * (b - a) < (j : ℚ) * (b - a) :=
    mul_lt_mul_of_pos_right hij' (by linarith)
  exact add_lt_add_left ((div_lt_div_iff_of_pos_right hd).mpr hmul) a

theorem forall2_head {R : α → β → Prop} {l : List α} {ys : List β} {a : α}
    (h : List.Forall₂ R l ys) (ha : l.head? = some a) :
    ∃ y, ys.head? = some y ∧ R a y := by
  cases h with
  | nil => simp at ha
  | cons hr ht =>
    simp only [List.head?_cons, Option.some.injEq] at ha
    subst ha
    exact ⟨_, rfl, hr⟩

theorem forall2_getLast {R : α → β → Prop} :
    ∀ {l : List α} {ys : List β} {a : α}, List.Forall₂ R l ys →
      l.getLast? = some a → ∃ y, ys.getLast? = some y ∧ R a y := by
  intro l
  induction l with
  | nil => intro ys a h ha; simp at ha
  | cons x l ih =>
    intro ys a h ha
    cases h with
    | cons hr ht =>
      cases l with
      | nil =>
        cases ht
        simp only [List.getLast?_singleton, Option.some.injEq] at ha
        subst ha
        exact ⟨_, rfl, hr⟩
      | cons c l2 =>
        rw [List.getLast?_cons_cons] at ha
        obtain ⟨y2, hy2, hr2⟩ := ih ht ha
        cases ht with
        | cons hrc htc =>
          exact ⟨y2, by rw [List.getLast?_cons_cons]; exact hy2, hr2⟩

/-- Success inversion for the steam solver: a successful run determines
every intermediate backend answer and every field of the result. -/
theorem steam_inv {B : Props} {Pc Pb Tb ep et : ℚ} {r : SteamResult}
    (h : (calculate_steam_cycle B Pc Pb Tb ep et).1 = some r) :
    ∃ h1 s1 d1 T1 dh2 h2 s2 T2 h3 s3 h4s h4 s4 T4 pcrit hfl sfl hgl sgl,
      B.H_PQ (Pc * 1000) 0 = some h1 ∧
      B.S_PQ (Pc * 1000) 0 = some s1 ∧
      B.D_PQ (Pc * 1000) 0 = some d1 ∧ d1 ≠ 0 ∧
      B.T_PQ (Pc * 1000) 0 = some T1 ∧
      ep / 100 ≠ 0 ∧
      dh2 = (h1 + 1 / d1 * (Pb * 1000 - Pc * 1000) - h1) / (ep / 100) ∧
      h2 = h1 + dh2 ∧
      B.S_PH (Pb * 1000) h2 = some s2 ∧
      B.T_PH (Pb * 1000) h2 = some T2 ∧
      B.H_PT (Pb * 1000) (Tb + 273.15) = some h3 ∧
      B.S_PT (Pb * 1000) (Tb + 273.15) = some s3 ∧
      B.H_PS (Pc * 1000) s3 = some h4s ∧
      h4 = h3 - (h3 - h4s) * (et / 100) ∧
      B.S_PH (Pc * 1000) h4 = some s4 ∧
      B.T_PH (Pc * 1000) h4 = some T4 ∧
      B.Pcrit = some pcrit ∧
      (mmap (fun p => M.bind (query (B.H_PQ p 0)) fun x => M.pure (x / 1000))
        (P_sat_arr pcrit)).1 = some hfl ∧
      (mmap (fun p => M.bind (query (B.S_PQ p 0)) fun x => M.pure (x / 1000))
        (P_sat_arr pcrit)).1 = some sfl ∧
      (mmap (fun p => M.bind (query (B.H_PQ p 1)) fun x => M.pure (x / 1000))
        (P_sat_arr pcrit)).1 = some hgl ∧
      (mmap (fun p => M.bind (query (B.S_PQ p 1)) fun x => M.pure (x / 1000))
        (P_sat_arr pcrit)).1 = some sgl ∧
      (h3 - h2) / 1000 ≠ 0 ∧
      r.pump_w = (h2 - h1) / 1000 ∧
      r.boiler_q = (h3 - h2) / 1000 ∧
      r.turb_w = (h3 - h4) / 1000 ∧
      r.cond_q = (h4 - h1) / 1000 ∧
      r.net_w = r.turb_w - r.pump_w ∧
      r.eta = r.net_w / r.boiler_q * 100 ∧
      r.hf = hfl ∧ r.sf = sfl ∧ r.hg = hgl ∧ r.sg = sgl ∧
      r.h_cycle = [h1 / 1000, h2 / 1000, h3 / 1000, h4 / 1000, h1 / 1000] ∧
      r.s_cycle = [s1 / 1000, s2 / 1000, s3 / 1000, s4 / 1000, s1 / 1000] ∧
      r.T_C = [T1 - 273.15, T2 - 273.15, Tb, T4 - 273.15] ∧
      r.P_kPa = [Pc, Pb, Pb, Pc] ∧
      r.h_kJ = [h1 / 1000, h2 / 1000, h3 / 1000, h4 / 1000] ∧
      r.s_kJ = [s1 / 1000, s2 / 1000, s3 / 1000, s4 / 1000] := by
  unfold calculate_steam_cycle at h
  simp only [bind_eq, pure_eq] at h
  obtain ⟨h1, hq1, h⟩ := bind_fst h
  obtain ⟨s1, hq2, h⟩ := bind_fst h
  obtain ⟨d1, hq3, h⟩ := bind_fst h
  obtain ⟨v1, hv1, h⟩ := bind_fst h
  obtain ⟨hd1, hv1e⟩ := qdiv_fst_some hv1
  subst hv1e
  obtain ⟨T1, hq4, h⟩ := bind_fst h
  obtain ⟨dh2, hdh2, h⟩ := bind_fst h
  obtain ⟨hep, hdh2e⟩ := qdiv_fst_some hdh2
  subst hdh2e
  obtain ⟨s2, hq5, h⟩ := bind_fst h
  obtain ⟨T2, hq6, h⟩ := bind_fst h
  obtain ⟨h3, hq7, h⟩ := bind_fst h
  obtain ⟨s3, hq8, h⟩ := bind_fst h
  obtain ⟨h4s, hq9, h⟩ := bind_fst h
  obtain ⟨s4, hq10, h⟩ := bind_fst h
  obtain ⟨T4, hq11, h⟩ := bind_fst h
  obtain ⟨pcrit, hq12, h⟩ := bind_fst h
  obtain ⟨hfl, hm1, h⟩ := bind_fst h
  obtain ⟨sfl, hm2, h⟩ := bind_fst h
  obtain ⟨hgl, hm3, h⟩ := bind_fst h
  obtain ⟨sgl, hm4, h⟩ := bind_fst h
  obtain ⟨eta0, heta, h⟩ := bind_fst h
  obtain ⟨hbq, heta0⟩ := qdiv_fst_some heta
  subst heta0
  have hr := pure_fst_some h
  subst hr
  exact ⟨h1, s1, d1, T1, _, _, s2, T2, h3, s3, h4s, _, s4, T4, pcrit,
    hfl, sfl, hgl, sgl, hq1, hq2, hq3, hd1, hq4, hep, rfl, rfl, hq5, hq6,
    hq7, hq8, hq9, rfl, hq10, hq11, hq12, hm1, hm2, hm3, hm4, hbq,
    rfl, rfl, rfl, rfl, rfl, rfl, rfl, rfl, rfl, rfl, rfl, rfl, rfl, rfl,
    rfl, rfl⟩

/-- Success inversion for the gas solver: a successful run determines
every intermediate backend answer, the four leg traces, and every field
of the result. -/
theorem gas_inv {B : Props} {lg : ℚ → ℚ} {N N2 : ℕ}
    {pr T1C T3C ec et m : ℚ} {r : GasResult}
    (h : (calculate_gas_cycle_THdot B lg N N2 pr T1C T3C ec et m).1 = some r) :
    ∃ h1 s1 h2s dh h2 T2 s2 h3 s3 h4s h4 T4 s4 l12 l23 l34 l41,
      B.H_PT 101325 (T1C + 273.15) = some h1 ∧
      B.S_PT 101325 (T1C + 273.15) = some s1 ∧
      B.H_PS (101325 * pr) s1 = some h2s ∧
      ec / 100 ≠ 0 ∧
      dh = (h2s - h1) / (ec / 100) ∧
      h2 = h1 + dh ∧
      B.T_PH (101325 * pr) h2 = some T2 ∧
      B.S_PH (101325 * pr) h2 = some s2 ∧
      B.H_PT (101325 * pr) (T3C + 273.15) = some h3 ∧
      B.S_PT (101325 * pr) (T3C + 273.15) = some s3 ∧
      B.H_PS 101325 s3 = some h4s ∧
      h4 = h3 - (h3 - h4s) * (et / 100) ∧
      B.T_PH 101325 h4 = some T4 ∧
      B.S_PH 101325 h4 = some s4 ∧
      (leg12 B lg 101325 (101325 * pr) h1 h2 m N).1 = some l12 ∧
      (leg23 B (101325 * pr) h1 m T2 (T3C + 273.15) N2).1 = some l23 ∧
      (leg34 B lg 101325 (101325 * pr) h1 h3 h4 m N).1 = some l34 ∧
      (leg41 B 101325 h1 m T4 (T1C + 273.15) N).1 = some l41 ∧
      (h3 - h4) * m / 1000 ≠ 0 ∧
      (h3 - h2) * m / 1000 ≠ 0 ∧
      r.HT12 = l12 ∧ r.HT23 = l23 ∧ r.HT34 = l34 ∧ r.HT41 = l41 ∧
      r.comp_w = (h2 - h1) * m / 1000 ∧
      r.heat_in = (h3 - h2) * m / 1000 ∧
      r.turb_w = (h3 - h4) * m / 1000 ∧
      r.net_w = r.turb_w - r.comp_w ∧
      r.bwr = r.comp_w / r.turb_w * 100 ∧
      r.eta = r.net_w / r.heat_in * 100 ∧
      r.h_states = [0, (h2 - h1) * m / 1000, (h3 - h1) * m / 1000,
        (h4 - h1) * m / 1000] ∧
      r.T_states = [T1C, T2 - 273.15, T3C, T4 - 273.15] ∧
      r.T_C = [T1C, T2 - 273.15, T3C, T4 - 273.15] ∧
      r.P_kPa = [101325 / 1000, 101325 * pr / 1000, 101325 * pr / 1000,
        101325 / 1000] ∧
      r.h_kJ = [h1 / 1000, h2 / 1000, h3 / 1000, h4 / 1000] ∧
      r.s_kJ = [s1 / 1000, s2 / 1000, s3 / 1000, s4 / 1000] := by
  unfold calculate_gas_cycle_THdot at h
  simp only [bind_eq, pure_eq] at h
  obtain ⟨h1, hq1, h⟩ := bind_fst h
  obtain ⟨s1, hq2, h⟩ := bind_fst h
  obtain ⟨h2s, hq3, h⟩ := bind_fst h
  obtain ⟨dh, hdh, h⟩ := bind_fst h
  obtain ⟨hec, hdhe⟩ := qdiv_fst_some hdh
  subst hdhe
  obtain ⟨T2, hq4, h⟩ := bind_fst h
  obtain ⟨s2, hq5, h⟩ := bind_fst h
  obtain ⟨h3, hq6, h⟩ := bind_fst h
  obtain ⟨s3, hq7, h⟩ := bind_fst h
  obtain ⟨h4s, hq8, h⟩ := bind_fst h
  obtain ⟨T4, hq9, h⟩ := bind_fst h
  obtain ⟨s4, hq10, h⟩ := bind_fst h
  obtain ⟨l12, hl12, h⟩ := bind_fst h
  obtain ⟨l23, hl23, h⟩ := bind_fst h
  obtain ⟨l34, hl34, h⟩ := bind_fst h
  obtain ⟨l41, hl41, h⟩ := bind_fst h
  obtain ⟨bwr0, hbwr, h⟩ := bind_fst h
  obtain ⟨htw, hbwr0⟩ := qdiv_fst_some hbwr
  subst hbwr0
  obtain ⟨eta0, heta, h⟩ := bind_fst h
  obtain ⟨hhi, heta0⟩ := qdiv_fst_some heta
  subst heta0
  have hr := pure_fst_some h
  subst hr
  exact ⟨h1, s1, h2s, _, _, T2, s2, h3, s3, h4s, _, T4, s4, l12, l23, l34,
    l41, hq1, hq2, hq3, hec, rfl, rfl, hq4, hq5, hq6, hq7, hq8, rfl, hq9,
    hq10, hl12, hl23, hl34, hl41, htw, hhi, rfl, rfl, rfl, rfl, rfl, rfl,
    rfl, rfl, rfl, rfl, rfl, rfl, rfl, rfl, rfl, rfl⟩

theorem bind_fst_step {m : M α} {a : α} (hm : m.1 = some a) (f : α → M β) :
    (M.bind m f).1 = (f a).1 := by
  obtain ⟨o, n⟩ := m
  cases o with
  | none => simp at hm
  | some x =>
    obtain rfl : x = a := by simpa using hm
    rfl

theorem bind_none_of_cont {m : M α} {a : α} (hm : m.1 = some a) {f : α → M β}
    (h : (f a).1 = none) : (M.bind m f).1 = none := by
  rw [bind_fst_step hm]
  exact h

theorem bind_none {m : M α} (hm : m.1 = none) (f : α → M β) :
    (M.bind m f).1 = none := by
  obtain ⟨o, n⟩ := m
  cases o with
  | none => rfl
  | some x => simp at hm

theorem qdiv_fst_zero (a : ℚ) : (qdiv a 0).1 = none := by simp [qdiv]

/-- C6: for every total feed `total ≥ 0` and fractional parameters in
`[0, 1]` (handed to the router as percentages `100*fraction`), the
biomass router conserves mass exactly in the rational model:
`moisture_rich + moisture_lean = total` and
`carbon_solid + carbon_residual = moisture_lean`; exactness in exact
arithmetic subsumes the claimed `1e-9` relative floating tolerance. -/
theorem c6_biomass_conservation
    (m_total moist_pct ad_eff_pct htc_conv_pct : ℚ)
    (h_total : 0 ≤ m_total)
    (h_m0 : 0 ≤ moist_pct / 100) (h_m1 : moist_pct / 100 ≤ 1)
    (h_a0 : 0 ≤ ad_eff_pct / 100) (h_a1 : ad_eff_pct / 100 ≤ 1)
    (h_h0 : 0 ≤ htc_conv_pct / 100) (h_h1 : htc_conv_pct / 100 ≤ 1) :
    (biomass_outputs m_total moist_pct ad_eff_pct htc_conv_pct).1 +
        (biomass_outputs m_total moist_pct ad_eff_pct htc_conv_pct).2.1 =
      m_total ∧
    (biomass_outputs m_total moist_pct ad_eff_pct htc_conv_pct).2.2.2.1 +
        (biomass_outputs m_total moist_pct ad_eff_pct htc_conv_pct).2.2.2.2 =
      (biomass_outputs m_total moist_pct ad_eff_pct htc_conv_pct).2.1 := by
  unfold biomass_outputs
  constructor <;> ring

theorem c6_witness :
    ((0 : ℚ) ≤ 10 ∧ (0 : ℚ) ≤ 50 / 100 ∧ (50 : ℚ) / 100 ≤ 1 ∧
      (0 : ℚ) ≤ 60 / 100 ∧ (60 : ℚ) / 100 ≤ 1 ∧
      (0 : ℚ) ≤ 70 / 100 ∧ (70 : ℚ) / 100 ≤ 1) ∧
    (biomass_outputs 10 50 60 70).1 + (biomass_outputs 10 50 60 70).2.1 = 10 ∧
    (biomass_outputs 10 50 60 70).2.2.2.1 +
        (biomass_outputs 10 50 60 70).2.2.2.2 =
      (biomass_outputs 10 50 60 70).2.1 :=
  ⟨by norm_num,
    c6_biomass_conservation 10 50 60 70 (by norm_num) (by norm_num)
      (by norm_num) (by norm_num) (by norm_num) (by norm_num) (by norm_num)⟩

/-- C3: on every successful solve the returned derived scalars satisfy
`net_work = turbine_work - pump_or_compressor_work` and
`efficiency = net_work / heat_input` expressed as a percentage; the gas
cycle additionally returns `back_work_ratio = compressor_work /
turbine_work` as a percentage, and each gas work and heat term is the
corresponding specific-enthalpy difference scaled by the mass flow. -/
theorem c3_derived_scalars (B : Props) (lg : ℚ → ℚ)
    (Pc Pb Tb ep et pr T1C T3C ec2 et2 m : ℚ)
    (rs : SteamResult) (rg : GasResult)
    (hs : (calculate_steam_cycle B Pc Pb Tb ep et).1 = some rs)
    (hg : (calculate_gas_cycle_THdot B lg 60 80 pr T1C T3C ec2 et2 m).1
      = some rg) :
    rs.net_w = rs.turb_w - rs.pump_w ∧
    rs.eta = rs.net_w / rs.boiler_q * 100 ∧
    rg.net_w = rg.turb_w - rg.comp_w ∧
    rg.bwr = rg.comp_w / rg.turb_w * 100 ∧
    rg.eta = rg.net_w / rg.heat_in * 100 ∧
    rg.comp_w = (rg.h_kJ.getD 1 0 - rg.h_kJ.getD 0 0) * m ∧
    rg.heat_in = (rg.h_kJ.getD 2 0 - rg.h_kJ.getD 1 0) * m ∧
    rg.turb_w = (rg.h_kJ.getD 2 0 - rg.h_kJ.getD 3 0) * m := by
  obtain ⟨h1, s1, d1, T1, dh2, h2, s2, T2, h3, s3, h4s, h4, s4, T4, pcrit,
    hfl, sfl, hgl, sgl, hq1, hq2, hq3, hd1, hq4, hep, hdh2, hh2, hq5, hq6,
    hq7, hq8, hq9, hh4, hq10, hq11, hq12, hm1, hm2, hm3, hm4, hbqne, hpw,
    hbq, htw, hcq, hnw, heta, hhf, hsf, hhg, hsg, hhc, hsc, hTC, hPk, hhk,
    hsk⟩ := steam_inv hs
  obtain ⟨g1, gs1, g2s, gdh, g2, gT2, gs2, g3, gs3, g4s, g4, gT4, gs4,
    l12, l23, l34, l41, gq1, gq2, gq3, gec, gdhe, gh2, gq4, gq5, gq6, gq7,
    gq8, gh4, gq9, gq10, gl12, gl23, gl34, gl41, gtwne, ghine, gHT12,
    gHT23, gHT34, gHT41, gcomp, gheat, gturb, gnet, gbwr, geta, ghst,
    gTst, gTC, gPk, ghk, gsk⟩ := gas_inv hg
  refine ⟨hnw, heta, gnet, gbwr, geta, ?_, ?_, ?_⟩
  · rw [gcomp, ghk]
    simp only [List.getD_cons_succ, List.getD_cons_zero]
    ring
  · rw [gheat, ghk]
    simp only [List.getD_cons_succ, List.getD_cons_zero]
    ring
  · rw [gturb, ghk]
    simp only [List.getD_cons_succ, List.getD_cons_zero]
    ring

theorem c3_steam_isSome :
    ((calculate_steam_cycle gasProps 10 2000 350 85 85).1).isSome = true := by
  decide

theorem c3_gas_isSome :
    ((calculate_gas_cycle_THdot gasProps id 60 80 2 25 1100 88 90 1).1).isSome
      = true := by
  decide

theorem c3_witness :
    (calculate_steam_cycle gasProps 10 2000 350 85 85).1 =
      some ((calculate_steam_cycle gasProps 10 2000 350 85 85).1.get
        c3_steam_isSome) ∧
    (calculate_gas_cycle_THdot gasProps id 60 80 2 25 1100 88 90 1).1 =
      some ((calculate_gas_cycle_THdot gasProps id 60 80 2 25 1100 88 90
        1).1.get c3_gas_isSome) ∧
    ((calculate_steam_cycle gasProps 10 2000 350 85 85).1.get
        c3_steam_isSome).net_w =
      ((calculate_steam_cycle gasProps 10 2000 350 85 85).1.get
        c3_steam_isSome).turb_w -
      ((calculate_steam_cycle gasProps 10 2000 350 85 85).1.get
        c3_steam_isSome).pump_w ∧
    ((calculate_gas_cycle_THdot gasProps id 60 80 2 25 1100 88 90 1).1.get
        c3_gas_isSome).bwr =
      ((calculate_gas_cycle_THdot gasProps id 60 80 2 25 1100 88 90 1).1.get
        c3_gas_isSome).comp_w /
      ((calculate_gas_cycle_THdot gasProps id 60 80 2 25 1100 88 90 1).1.get
        c3_gas_isSome).turb_w * 100 :=
  ⟨(Option.some_get c3_steam_isSome).symm,
   (Option.some_get c3_gas_isSome).symm,
   (c3_derived_scalars gasProps id 10 2000 350 85 85 2 25 1100 88 90 1 _ _
     (Option.some_get c3_steam_isSome).symm
     (Option.some_get c3_gas_isSome).symm).1,
   (c3_derived_scalars gasProps id 10 2000 350 85 85 2 25 1100 88 90 1 _ _
     (Option.some_get c3_steam_isSome).symm
     (Option.some_get c3_gas_isSome).symm).2.2.2.1⟩

/-- C7: on every successful solve both solvers report the thermal
efficiency exactly as computed, `net_work / heat_input` as a percentage,
with no clamping or trapping inside the solver; the standard gas scenario
against a backend with a strongly irreversible compressor returns the raw
negative value `-350`, and only the presentation layer's `displayEff`
clamps it to zero. -/
theorem c7_raw_efficiency (B : Props) (lg : ℚ → ℚ)
    (Pc Pb Tb ep et pr T1C T3C ec2 et2 m : ℚ)
    (rs : SteamResult) (rg : GasResult)
    (hs : (calculate_steam_cycle B Pc Pb Tb ep et).1 = some rs)
    (hg : (calculate_gas_cycle_THdot B lg 60 80 pr T1C T3C ec2 et2 m).1
      = some rg) :
    rs.eta = rs.net_w / rs.boiler_q * 100 ∧
    rg.eta = rg.net_w / rg.heat_in * 100 ∧
    displayEff rs.eta = max 0 rs.eta ∧
    displayEff rg.eta = max 0 rg.eta ∧
    ((calculate_gas_cycle_THdot gasProps id 60 80 2 25 1100 50 100 1).1.map
      GasResult.eta) = some (-350) ∧
    displayEff (-350) = 0 ∧ (-350 : ℚ) < 0 := by
  obtain ⟨h1, s1, d1, T1, dh2, h2, s2, T2, h3, s3, h4s, h4, s4, T4, pcrit,
    hfl, sfl, hgl, sgl, hq1, hq2, hq3, hd1, hq4, hep, hdh2, hh2, hq5, hq6,
    hq7, hq8, hq9, hh4, hq10, hq11, hq12, hm1, hm2, hm3, hm4, hbqne, hpw,
    hbq, htw, hcq, hnw, heta, hrest⟩ := steam_inv hs
  obtain ⟨g1, gs1, g2s, gdh, g2, gT2, gs2, g3, gs3, g4s, g4, gT4, gs4,
    l12, l23, l34, l41, gq1, gq2, gq3, gec, gdhe, gh2, gq4, gq5, gq6, gq7,
    gq8, gh4, gq9, gq10, gl12, gl23, gl34, gl41, gtwne, ghine, gHT12,
    gHT23, gHT34, gHT41, gcomp, gheat, gturb, gnet, gbwr, geta,
    grest⟩ := gas_inv hg
  refine ⟨heta, geta, rfl, rfl, by decide, ?_, by norm_num⟩
  · unfold displayEff
    rw [max_eq_left (by norm_num : (-350 : ℚ) ≤ 0)]

theorem c7_steam_isSome :
    ((calculate_steam_cycle gasProps 15 1500 300 80 80).1).isSome = true := by
  decide

theorem c7_gas_isSome :
    ((calculate_gas_cycle_THdot gasProps id 60 80 3 20 1000 80 85 2).1).isSome
      = true := by
  decide

theorem c7_witness :
    (calculate_steam_cycle gasProps 15 1500 300 80 80).1 =
      some ((calculate_steam_cycle gasProps 15 1500 300 80 80).1.get
        c7_steam_isSome) ∧
    ((calculate_steam_cycle gasProps 15 1500 300 80 80).1.get
        c7_steam_isSome).eta =
      ((calculate_steam_cycle gasProps 15 1500 300 80 80).1.get
        c7_steam_isSome).net_w /
      ((calculate_steam_cycle gasProps 15 1500 300 80 80).1.get
        c7_steam_isSome).boiler_q * 100 ∧
    ((calculate_gas_cycle_THdot gasProps id 60 80 2 25 1100 50 100 1).1.map
      GasResult.eta) = some (-350) ∧
    displayEff (-350) = 0 := by
  have h := c7_raw_efficiency gasProps id 15 1500 300 80 80 3 20 1000 80 85 2
    _ _ (Option.some_get c7_steam_isSome).symm
    (Option.some_get c7_gas_isSome).symm
  exact ⟨(Option.some_get c7_steam_isSome).symm, h.1, h.2.2.2.2.1,
    h.2.2.2.2.2.1⟩

theorem dome_pass_snd_le (q : ℚ → Option ℚ) (pcrit : ℚ) :
    (mmap (fun p => M.bind (query (q p)) fun x => M.pure (x / 1000))
      (P_sat_arr pcrit)).2 ≤ 300 := by
  have hf : ∀ p : ℚ,
      (M.bind (query (q p)) fun x => M.pure (x / 1000)).2 ≤ 1 := by
    intro p
    exact le_trans (bind_snd_le 1 0 (Nat.le_refl 1) fun x => Nat.le_refl 0)
      (by norm_num)
  have h := mmap_snd_le 1 hf (P_sat_arr pcrit)
  simpa [P_sat_arr, linspace_length] using h

theorem leg12_snd_le (B : Props) (lg : ℚ → ℚ) (P1 P2 h1 h2 m_dot : ℚ)
    (N : ℕ) : (leg12 B lg P1 P2 h1 h2 m_dot N).2 ≤ N := by
  have hf : ∀ P_i : ℚ,
      (M.bind (qdiv (lg P_i - lg P1) (lg P2 - lg P1)) fun frac =>
        let h_i := h1 + frac * (h2 - h1)
        M.bind (query (B.T_PH P_i h_i)) fun T_i =>
          M.pure ((h_i - h1) * m_dot / 1000, T_i - 273.15)).2 ≤ 1 := by
    intro P_i
    exact le_trans (bind_snd_le 0 1 (Nat.le_refl 0) fun frac =>
      le_trans (bind_snd_le 1 0 (Nat.le_refl 1) fun T_i => Nat.le_refl 0)
        (by norm_num)) (by norm_num)
  have h := mmap_snd_le 1 hf (linspace P1 P2 N)
  simpa [leg12, linspace_length] using h

theorem leg23_snd_le (B : Props) (P2 h1 m_dot T2 T3 : ℚ) (N2 : ℕ) :
    (leg23 B P2 h1 m_dot T2 T3 N2).2 ≤ N2 := by
  have hf : ∀ T_i : ℚ,
      (M.bind (query (B.H_PT P2 T_i)) fun h_i =>
        M.pure ((h_i - h1) * m_dot / 1000, T_i - 273.15)).2 ≤ 1 := by
    intro T_i
    exact le_trans (bind_snd_le 1 0 (Nat.le_refl 1) fun h_i => Nat.le_refl 0)
      (by norm_num)
  have h := mmap_snd_le 1 hf (linspace T2 T3 N2)
  simpa [leg23, linspace_length] using h

theorem leg34_snd_le (B : Props) (lg : ℚ → ℚ) (P1 P2 h1 h3 h4 m_dot : ℚ)
    (N : ℕ) : (leg34 B lg P1 P2 h1 h3 h4 m_dot N).2 ≤ N := by
  have hf : ∀ P_i : ℚ,
      (M.bind (qdiv (lg P2 - lg P_i) (lg P2 - lg P1)) fun frac =>
        let h_i := h3 - frac * (h3 - h4)
        M.bind (query (B.T_PH P_i h_i)) fun T_i =>
          M.pure ((h_i - h1) * m_dot / 1000, T_i - 273.15)).2 ≤ 1 := by
    intro P_i
    exact le_trans (bind_snd_le 0 1 (Nat.le_refl 0) fun frac =>
      le_trans (bind_snd_le 1 0 (Nat.le_refl 1) fun T_i => Nat.le_refl 0)
        (by norm_num)) (by norm_num)
  have h := mmap_snd_le 1 hf (linspace P2 P1 N)
  simpa [leg34, linspace_length] using h

theorem leg41_snd_le (B : Props) (P1 h1 m_dot T4 T1 : ℚ) (N : ℕ) :
    (leg41 B P1 h1 m_dot T4 T1 N).2 ≤ N := by
  have hf : ∀ T_i : ℚ,
      (M.bind (query (B.H_PT P1 T_i)) fun h_i =>
        M.pure ((h_i - h1) * m_dot / 1000, T_i - 273.15)).2 ≤ 1 := by
    intro T_i
    exact le_trans (bind_snd_le 1 0 (Nat.le_refl 1) fun h_i => Nat.le_refl 0)
      (by norm_num)
  have h := mmap_snd_le 1 hf (linspace T4 T1 N)
  simpa [leg41, linspace_length] using h

/-- C9: each invocation of either solver performs a bounded,
input-independent number of property-backend queries: at most `1212` for
the Rankine solver (12 state queries plus 4 passes over the 300-point
saturation dome) and at most `270` for the Brayton solver with its
source-fixed sample counts 60 and 80 (10 state queries plus
`60+80+60+60` path samples).  Termination is structural: both embedded
solvers are total functions whose only iteration is over fixed-length
sampling lists, with no retry loop. -/
theorem c9_bounded_queries (B : Props) (lg : ℚ → ℚ)
    (Pc Pb Tb ep et pr T1C T3C ec2 et2 m : ℚ) :
    (calculate_steam_cycle B Pc Pb Tb ep et).2 ≤ 1212 ∧
    (calculate_gas_cycle_THdot B lg 60 80 pr T1C T3C ec2 et2 m).2 ≤ 270 := by
  constructor
  · unfold calculate_steam_cycle
    simp only [bind_eq, pure_eq]
    refine le_trans (bind_snd_le 1 1211 (Nat.le_refl 1) fun a => ?_) (by norm_num)
    refine le_trans (bind_snd_le 1 1210 (Nat.le_refl 1) fun a => ?_) (by norm_num)
    refine le_trans (bind_snd_le 1 1209 (Nat.le_refl 1) fun a => ?_) (by norm_num)
    refine le_trans (bind_snd_le 0 1209 (Nat.le_refl 0) fun a => ?_) (by norm_num)
    refine le_trans (bind_snd_le 1 1208 (Nat.le_refl 1) fun a => ?_) (by norm_num)
    refine le_trans (bind_snd_le 0 1208 (Nat.le_refl 0) fun a => ?_) (by norm_num)
    refine le_trans (bind_snd_le 1 1207 (Nat.le_refl 1) fun a => ?_) (by norm_num)
    refine le_trans (bind_snd_le 1 1206 (Nat.le_refl 1) fun a => ?_) (by norm_num)
    refine le_trans (bind_snd_le 1 1205 (Nat.le_refl 1) fun a => ?_) (by norm_num)
    refine le_trans (bind_snd_le 1 1204 (Nat.le_refl 1) fun a => ?_) (by norm_num)
    refine le_trans (bind_snd_le 1 1203 (Nat.le_refl 1) fun a => ?_) (by norm_num)
    refine le_trans (bind_snd_le 1 1202 (Nat.le_refl 1) fun a => ?_) (by norm_num)
    refine le_trans (bind_snd_le 1 1201 (Nat.le_refl 1) fun a => ?_) (by norm_num)
    refine le_trans (bind_snd_le 1 1200 (Nat.le_refl 1) fun a => ?_) (by norm_num)
    refine le_trans (bind_snd_le 300 900 (dome_pass_snd_le _ _) fun a => ?_) (by norm_num)
    refine le_trans (bind_snd_le 300 600 (dome_pass_snd_le _ _) fun a => ?_) (by norm_num)
    refine le_trans (bind_snd_le 300 300 (dome_pass_snd_le _ _) fun a => ?_) (by norm_num)
    refine le_trans (bind_snd_le 300 0 (dome_pass_snd_le _ _) fun a => ?_) (by norm_num)
    refine le_trans (bind_snd_le 0 0 (Nat.le_refl 0) fun a => ?_) (by norm_num)
    exact Nat.le_refl 0
  · unfold calculate_gas_cycle_THdot
    simp only [bind_eq, pure_eq]
    refine le_trans (bind_snd_le 1 269 (Nat.le_refl 1) fun a => ?_) (by norm_num)
    refine le_trans (bind_snd_le 1 268 (Nat.le_refl 1) fun a => ?_) (by norm_num)
    refine le_trans (bind_snd_le 1 267 (Nat.le_refl 1) fun a => ?_) (by norm_num)
    refine le_trans (bind_snd_le 0 267 (Nat.le_refl 0) fun a => ?_) (by norm_num)
    refine le_trans (bind_snd_le 1 266 (Nat.le_refl 1) fun a => ?_) (by norm_num)
    refine le_trans (bind_snd_le 1 265 (Nat.le_refl 1) fun a => ?_) (by norm_num)
    refine le_trans (bind_snd_le 1 264 (Nat.le_refl 1) fun a => ?_) (by norm_num)
    refine le_trans (bind_snd_le 1 263 (Nat.le_refl 1) fun a => ?_) (by norm_num)
    refine le_trans (bind_snd_le 1 262 (Nat.le_refl 1) fun a => ?_) (by norm_num)
    refine le_trans (bind_snd_le 1 261 (Nat.le_refl 1) fun a => ?_) (by norm_num)
    refine le_trans (bind_snd_le 1 260 (Nat.le_refl 1) fun a => ?_) (by norm_num)
    refine le_trans (bind_snd_le 60 200 (leg12_snd_le _ _ _ _ _ _ _ _) fun a => ?_) (by norm_num)
    refine le_trans (bind_snd_le 80 120 (leg23_snd_le _ _ _ _ _ _ _) fun a => ?_) (by norm_num)
    refine le_trans (bind_snd_le 60 60 (leg34_snd_le _ _ _ _ _ _ _ _ _) fun a => ?_) (by norm_num)
    refine le_trans (bind_snd_le 60 0 (leg41_snd_le _ _ _ _ _ _ _) fun a => ?_) (by norm_num)
    refine le_trans (bind_snd_le 0 0 (Nat.le_refl 0) fun a => ?_) (by norm_num)
    refine le_trans (bind_snd_le 0 0 (Nat.le_refl 0) fun a => ?_) (by norm_num)
    exact Nat.le_refl 0

/-- C10: the gas solver's back-work-ratio and efficiency divisions are
unguarded: whenever the computed states give `h3 = h4` (zero turbine
work) or `h3 = h2` (zero heat input), the corresponding Python float
division raises an undescribed `ZeroDivisionError` (failure of the
computation in this model) instead of a described input-constraint
error; the solver is well-defined only under the implicit preconditions
`h3 - h4 /= 0` and `h3 - h2 /= 0`. -/
theorem c10_unguarded_divisions (B : Props) (lg : ℚ → ℚ)
    (pr T1C T3C ec et m h1 s1 h2s T2 s2 h3 s3 h4s T4 s4 : ℚ)
    (l12 l23 l34 l41 : List (ℚ × ℚ))
    (hq1 : B.H_PT 101325 (T1C + 273.15) = some h1)
    (hq2 : B.S_PT 101325 (T1C + 273.15) = some s1)
    (hq3 : B.H_PS (101325 * pr) s1 = some h2s)
    (hec : ec / 100 ≠ 0)
    (hq4 : B.T_PH (101325 * pr) (h1 + (h2s - h1) / (ec / 100)) = some T2)
    (hq5 : B.S_PH (101325 * pr) (h1 + (h2s - h1) / (ec / 100)) = some s2)
    (hq6 : B.H_PT (101325 * pr) (T3C + 273.15) = some h3)
    (hq7 : B.S_PT (101325 * pr) (T3C + 273.15) = some s3)
    (hq8 : B.H_PS 101325 s3 = some h4s)
    (hq9 : B.T_PH 101325 (h3 - (h3 - h4s) * (et / 100)) = some T4)
    (hq10 : B.S_PH 101325 (h3 - (h3 - h4s) * (et / 100)) = some s4)
    (hl12 : (leg12 B lg 101325 (101325 * pr) h1
      (h1 + (h2s - h1) / (ec / 100)) m 60).1 = some l12)
    (hl23 : (leg23 B (101325 * pr) h1 m T2 (T3C + 273.15) 80).1 = some l23)
    (hl34 : (leg34 B lg 101325 (101325 * pr) h1 h3
      (h3 - (h3 - h4s) * (et / 100)) m 60).1 = some l34)
    (hl41 : (leg41 B 101325 h1 m T4 (T1C + 273.15) 60).1 = some l41) :
    (h3 - (h3 - h4s) * (et / 100) = h3 →
      (calculate_gas_cycle_THdot B lg 60 80 pr T1C T3C ec et m).1 = none) ∧
    (h3 = h1 + (h2s - h1) / (ec / 100) →
      (calculate_gas_cycle_THdot B lg 60 80 pr T1C T3C ec et m).1 = none) := by
  constructor
  · intro hcase
    unfold calculate_gas_cycle_THdot
    simp only [bind_eq, pure_eq]
    refine bind_none_of_cont hq1 ?_
    refine bind_none_of_cont hq2 ?_
    refine bind_none_of_cont hq3 ?_
    refine bind_none_of_cont (qdiv_fst_of hec) ?_
    refine bind_none_of_cont hq4 ?_
    refine bind_none_of_cont hq5 ?_
    refine bind_none_of_cont hq6 ?_
    refine bind_none_of_cont hq7 ?_
    refine bind_none_of_cont hq8 ?_
    refine bind_none_of_cont hq9 ?_
    refine bind_none_of_cont hq10 ?_
    refine bind_none_of_cont hl12 ?_
    refine bind_none_of_cont hl23 ?_
    refine bind_none_of_cont hl34 ?_
    refine bind_none_of_cont hl41 ?_
    have hb : (h3 - (h3 - (h3 - h4s) * (et / 100))) * m / 1000 = 0 := by
      rw [hcase]
      ring
    rw [hb]
    exact bind_none (qdiv_fst_zero _) _
  · intro hcase
    unfold calculate_gas_cycle_THdot
    simp only [bind_eq, pure_eq]
    refine bind_none_of_cont hq1 ?_
    refine bind_none_of_cont hq2 ?_
    refine bind_none_of_cont hq3 ?_
    refine bind_none_of_cont (qdiv_fst_of hec) ?_
    refine bind_none_of_cont hq4 ?_
    refine bind_none_of_cont hq5 ?_
    refine bind_none_of_cont hq6 ?_
    refine bind_none_of_cont hq7 ?_
    refine bind_none_of_cont hq8 ?_
    refine bind_none_of_cont hq9 ?_
    refine bind_none_of_cont hq10 ?_
    refine bind_none_of_cont hl12 ?_
    refine bind_none_of_cont hl23 ?_
    refine bind_none_of_cont hl34 ?_
    refine bind_none_of_cont hl41 ?_
    by_cases hturb : (h3 - (h3 - (h3 - h4s) * (et / 100))) * m / 1000 = 0
    · rw [hturb]
      exact bind_none (qdiv_fst_zero _) _
    · refine bind_none_of_cont (qdiv_fst_of hturb) ?_
      have hh : (h3 - (h1 + (h2s - h1) / (ec / 100))) * m / 1000 = 0 := by
        rw [← hcase]
        ring
      rw [hh]
      exact bind_none (qdiv_fst_zero _) _

theorem c10_l12_isSome :
    ((leg12 (constProps 1) id 101325 (101325 * 2) 1
      (1 + (1 - 1) / (88 / 100)) 1 60).1).isSome = true := by
  decide

theorem c10_l23_isSome :
    ((leg23 (constProps 1) (101325 * 2) 1 1 1 (1100 + 273.15) 80).1).isSome
      = true := by
  decide

theorem c10_l34_isSome :
    ((leg34 (constProps 1) id 101325 (101325 * 2) 1 1
      (1 - (1 - 1) * (90 / 100)) 1 60).1).isSome = true := by
  decide

theorem c10_l41_isSome :
    ((leg41 (constProps 1) 101325 1 1 1 (25 + 273.15) 60).1).isSome
      = true := by
  decide

theorem c10_witness :
    (calculate_gas_cycle_THdot (constProps 1) id 60 80 2 25 1100 88 90 1).1
      = none :=
  (c10_unguarded_divisions (constProps 1) id 2 25 1100 88 90 1 1 1 1 1 1 1
      1 1 1 1
      ((leg12 (constProps 1) id 101325 (101325 * 2) 1
        (1 + (1 - 1) / (88 / 100)) 1 60).1.get c10_l12_isSome)
      ((leg23 (constProps 1) (101325 * 2) 1 1 1 (1100 + 273.15) 80).1.get
        c10_l23_isSome)
      ((leg34 (constProps 1) id 101325 (101325 * 2) 1 1
        (1 - (1 - 1) * (90 / 100)) 1 60).1.get c10_l34_isSome)
      ((leg41 (constProps 1) 101325 1 1 1 (25 + 273.15) 60).1.get
        c10_l41_isSome)
      rfl rfl rfl (by norm_num) rfl rfl rfl rfl rfl rfl rfl
      (Option.some_get c10_l12_isSome).symm
      (Option.some_get c10_l23_isSome).symm
      (Option.some_get c10_l34_isSome).symm
      (Option.some_get c10_l41_isSome).symm).1 (by norm_num)

theorem bind_isSome_of_cont {m : M α} {a : α} (hm : m.1 = some a)
    {f : α → M β} (h : ((f a).1).isSome = true) :
    ((M.bind m f).1).isSome = true := by
  rw [bind_fst_step hm]
  exact h

/-- C1 counterexample: with condenser pressure 2000 kPa and boiler
pressure 10 kPa (inverted) the steam solver does not fail at all against
a backend that answers every query: it runs to completion and produces a
full result, so no input-constraint error is raised before (or instead
of) the property queries. -/
theorem c1_counterexample :
    ((calculate_steam_cycle (constProps 1) 2000 10 350 85 85).1).isSome
      = true := by
  decide

/-- C1 amended: the steam solver performs no input-constraint validation
whatsoever: for every pair of distinct condenser/boiler pressures —
including every inverted pair — and any nonzero pump efficiency, the
solve against a total backend proceeds straight through its property
queries and returns a complete result; failures can only arise from the
backend or from arithmetic, never from a pre-query constraint check. -/
theorem c1_no_input_validation (Pc Pb Tb ep et : ℚ) (hep : ep ≠ 0)
    (hne : Pc ≠ Pb) :
    ((calculate_steam_cycle (constProps 1) Pc Pb Tb ep et).1).isSome
      = true := by
  have hep100 : ep / 100 ≠ 0 := div_ne_zero hep (by norm_num)
  have hX : Pb - Pc ≠ 0 := sub_ne_zero.mpr (Ne.symm hne)
  unfold calculate_steam_cycle
  simp only [bind_eq, pure_eq]
  refine bind_isSome_of_cont rfl ?_
  refine bind_isSome_of_cont rfl ?_
  refine bind_isSome_of_cont rfl ?_
  refine bind_isSome_of_cont (qdiv_fst_of (by norm_num : (1 : ℚ) ≠ 0)) ?_
  refine bind_isSome_of_cont rfl ?_
  refine bind_isSome_of_cont (qdiv_fst_of hep100) ?_
  refine bind_isSome_of_cont rfl ?_
  refine bind_isSome_of_cont rfl ?_
  refine bind_isSome_of_cont rfl ?_
  refine bind_isSome_of_cont rfl ?_
  refine bind_isSome_of_cont rfl ?_
  refine bind_isSome_of_cont rfl ?_
  refine bind_isSome_of_cont rfl ?_
  refine bind_isSome_of_cont rfl ?_
  refine bind_isSome_of_cont (mmap_fst_of fun p hp => rfl) ?_
  refine bind_isSome_of_cont (mmap_fst_of fun p hp => rfl) ?_
  refine bind_isSome_of_cont (mmap_fst_of fun p hp => rfl) ?_
  refine bind_isSome_of_cont (mmap_fst_of fun p hp => rfl) ?_
  refine bind_isSome_of_cont (qdiv_fst_of ?_) ?_
  · intro h0
    apply hX
    field_simp at h0
    linarith
  · rfl

theorem c1_witness :
    ((85 : ℚ) ≠ 0 ∧ (3000 : ℚ) ≠ 10) ∧
    ((calculate_steam_cycle (constProps 1) 3000 10 350 85 85).1).isSome
      = true :=
  ⟨⟨by norm_num, by norm_num⟩,
    c1_no_input_validation 3000 10 350 85 85 (by norm_num) (by norm_num)⟩

/-- C4 counterexample: the gas solver's ideal compressor-outlet enthalpy
is the backend's isentropic-enthalpy answer, not the claimed linearized
incompressible estimate.  Against `linProps` (inlet enthalpy 0, density
1, isentropic-enthalpy query 7) with unit efficiencies, the solver
returns outlet enthalpy `7`, while the claims linearized formula
`h1 + v1*(P2 - P1)` followed by the efficiency correction would give
`0 + (101325 - 0)/(100/100) = 101325`. -/
theorem c4_counterexample :
    ((calculate_gas_cycle_THdot linProps id 60 80 2 25 1100 100 100 1).1.map
      (fun r => 1000 * r.h_kJ.getD 1 0)) = some 7 ∧
    gasLinearizedH2s linProps 2 25 = some 101325 ∧
    linProps.H_PT 101325 (25 + 273.15) = some 0 ∧
    (7 : ℚ) ≠ 0 + (101325 - 0) / (100 / 100) := by
  exact ⟨by decide, by decide, rfl, by norm_num⟩

/-- C4 amended: the steam solver computes the ideal pump-outlet enthalpy
by the linearized incompressible approximation
`h2s = h1 + (1/d1)*(Pb - Pc)` (no second backend query) and the actual
outlet as `h2 = h1 + (h2s - h1)/eta_p`, backing entropy and temperature
out at `(Pb, h2)`; the gas solver instead obtains its ideal
compressor-outlet enthalpy from the backend query at `(P2, s1)`, applies
the same efficiency correction, and backs temperature and entropy out at
`(P2, h2)`. -/
theorem c4_ideal_outlet (B : Props) (lg : ℚ → ℚ)
    (Pc Pb Tb ep et pr T1C T3C ec2 et2 m h1 d1 g1 gs1 g2s : ℚ)
    (rs : SteamResult) (rg : GasResult)
    (hs : (calculate_steam_cycle B Pc Pb Tb ep et).1 = some rs)
    (hg : (calculate_gas_cycle_THdot B lg 60 80 pr T1C T3C ec2 et2 m).1
      = some rg)
    (hsh1 : B.H_PQ (Pc * 1000) 0 = some h1)
    (hsd1 : B.D_PQ (Pc * 1000) 0 = some d1)
    (hgh1 : B.H_PT 101325 (T1C + 273.15) = some g1)
    (hgs1 : B.S_PT 101325 (T1C + 273.15) = some gs1)
    (hgh2s : B.H_PS (101325 * pr) gs1 = some g2s) :
    1000 * rs.h_kJ.getD 1 0 =
      h1 + (h1 + 1 / d1 * (Pb * 1000 - Pc * 1000) - h1) / (ep / 100) ∧
    B.S_PH (Pb * 1000) (1000 * rs.h_kJ.getD 1 0) =
      some (1000 * rs.s_kJ.getD 1 0) ∧
    B.T_PH (Pb * 1000) (1000 * rs.h_kJ.getD 1 0) =
      some (rs.T_C.getD 1 0 + 273.15) ∧
    1000 * rg.h_kJ.getD 1 0 = g1 + (g2s - g1) / (ec2 / 100) ∧
    B.S_PH (101325 * pr) (1000 * rg.h_kJ.getD 1 0) =
      some (1000 * rg.s_kJ.getD 1 0) ∧
    B.T_PH (101325 * pr) (1000 * rg.h_kJ.getD 1 0) =
      some (rg.T_C.getD 1 0 + 273.15) := by
  obtain ⟨h1x, s1, d1x, T1, dh2, h2, s2, T2, h3, s3, h4s, h4, s4, T4, pcrit,
    hfl, sfl, hgl, sgl, hq1, hq2, hq3, hd1, hq4, hep, hdh2, hh2, hq5, hq6,
    hq7, hq8, hq9, hh4, hq10, hq11, hq12, hm1, hm2, hm3, hm4, hbqne, hpw,
    hbq, htw, hcq, hnw, heta, hhf, hsf, hhg, hsg, hhc, hsc, hTC, hPk, hhk,
    hsk⟩ := steam_inv hs
  obtain ⟨g1x, gs1x, g2sx, gdh, g2, gT2, gs2, g3, gs3, g4s, g4, gT4, gs4,
    l12, l23, l34, l41, gq1, gq2, gq3, gec, gdhe, gh2, gq4, gq5, gq6, gq7,
    gq8, gh4, gq9, gq10, gl12, gl23, gl34, gl41, gtwne, ghine, gHT12,
    gHT23, gHT34, gHT41, gcomp, gheat, gturb, gnet, gbwr, geta, ghst,
    gTst, gTC, gPk, ghk, gsk⟩ := gas_inv hg
  obtain rfl : h1 = h1x := by
    rw [hsh1] at hq1
    exact Option.some.inj hq1
  obtain rfl : d1 = d1x := by
    rw [hsd1] at hq3
    exact Option.some.inj hq3
  obtain rfl : g1 = g1x := by
    rw [hgh1] at gq1
    exact Option.some.inj gq1
  obtain rfl : gs1 = gs1x := by
    rw [hgs1] at gq2
    exact Option.some.inj gq2
  obtain rfl : g2s = g2sx := by
    rw [hgh2s] at gq3
    exact Option.some.inj gq3
  have eh2 : 1000 * rs.h_kJ.getD 1 0 = h2 := by
    rw [hhk]
    simp only [List.getD_cons_succ, List.getD_cons_zero]
    ring
  have es2 : 1000 * rs.s_kJ.getD 1 0 = s2 := by
    rw [hsk]
    simp only [List.getD_cons_succ, List.getD_cons_zero]
    ring
  have eT2 : rs.T_C.getD 1 0 + 273.15 = T2 := by
    rw [hTC]
    simp only [List.getD_cons_succ, List.getD_cons_zero]
    ring
  have geh2 : 1000 * rg.h_kJ.getD 1 0 = g2 := by
    rw [ghk]
    simp only [List.getD_cons_succ, List.getD_cons_zero]
    ring
  have ges2 : 1000 * rg.s_kJ.getD 1 0 = gs2 := by
    rw [gsk]
    simp only [List.getD_cons_succ, List.getD_cons_zero]
    ring
  have geT2 : rg.T_C.getD 1 0 + 273.15 = gT2 := by
    rw [gTC]
    simp only [List.getD_cons_succ, List.getD_cons_zero]
    ring
  refine ⟨?_, ?_, ?_, ?_, ?_, ?_⟩
  · rw [eh2, hh2, hdh2]
  · rw [eh2, es2]
    exact hq5
  · rw [eh2, eT2]
    exact hq6
  · rw [geh2, gh2, gdhe]
  · rw [geh2, ges2]
    exact gq5
  · rw [geh2, geT2]
    exact gq4

theorem c4_steam_isSome :
    ((calculate_steam_cycle gasProps 10 2000 350 85 90).1).isSome = true := by
  decide

theorem c4_gas_isSome :
    ((calculate_gas_cycle_THdot gasProps id 60 80 2 25 1100 88 90 3).1).isSome
      = true := by
  decide

theorem c4_witness :
    1000 * ((calculate_steam_cycle gasProps 10 2000 350 85 90).1.get
        c4_steam_isSome).h_kJ.getD 1 0 =
      1 + (1 + 1 / 1 * (2000 * 1000 - 10 * 1000) - 1) / (85 / 100) ∧
    gasProps.S_PH (2000 * 1000)
        (1000 * ((calculate_steam_cycle gasProps 10 2000 350 85 90).1.get
          c4_steam_isSome).h_kJ.getD 1 0) =
      some (1000 * ((calculate_steam_cycle gasProps 10 2000 350 85 90).1.get
          c4_steam_isSome).s_kJ.getD 1 0) ∧
    gasProps.T_PH (2000 * 1000)
        (1000 * ((calculate_steam_cycle gasProps 10 2000 350 85 90).1.get
          c4_steam_isSome).h_kJ.getD 1 0) =
      some (((calculate_steam_cycle gasProps 10 2000 350 85 90).1.get
          c4_steam_isSome).T_C.getD 1 0 + 273.15) ∧
    1000 * ((calculate_gas_cycle_THdot gasProps id 60 80 2 25 1100 88 90
        3).1.get c4_gas_isSome).h_kJ.getD 1 0 =
      0 + (20 - 0) / (88 / 100) ∧
    gasProps.S_PH (101325 * 2)
        (1000 * ((calculate_gas_cycle_THdot gasProps id 60 80 2 25 1100 88 90
          3).1.get c4_gas_isSome).h_kJ.getD 1 0) =
      some (1000 * ((calculate_gas_cycle_THdot gasProps id 60 80 2 25 1100 88
          90 3).1.get c4_gas_isSome).s_kJ.getD 1 0) ∧
    gasProps.T_PH (101325 * 2)
        (1000 * ((calculate_gas_cycle_THdot gasProps id 60 80 2 25 1100 88 90
          3).1.get c4_gas_isSome).h_kJ.getD 1 0) =
      some (((calculate_gas_cycle_THdot gasProps id 60 80 2 25 1100 88 90
          3).1.get c4_gas_isSome).T_C.getD 1 0 + 273.15) :=
  c4_ideal_outlet gasProps id 10 2000 350 85 90 2 25 1100 88 90 3 1 1 0 1 20
    _ _ (Option.some_get c4_steam_isSome).symm
    (Option.some_get c4_gas_isSome).symm rfl rfl (by decide) rfl (by decide)

/-- C8: the saturation dome is built over the pressure ramp
`np.linspace(700, 0.9995*Pcrit, 300)`: whenever `0.9995*Pcrit` exceeds
the 700 Pa floor (true for any real fluid) the ramp is strictly
increasing, starts at exactly 700 Pa and ends at exactly 99.95 percent
of the critical pressure; the saturated-liquid and saturated-vapor
enthalpy and entropy sequences all have the same length as the ramp,
with the entry at each position obtained from the backend at the
corresponding pressure sample (quality 0 for liquid, 1 for vapor). -/
theorem c8_saturation_dome (B : Props) (Pc Pb Tb ep et pcrit : ℚ)
    (r : SteamResult)
    (hs : (calculate_steam_cycle B Pc Pb Tb ep et).1 = some r)
    (hp : B.Pcrit = some pcrit)
    (hmono : 700 < pcrit * 0.9995) :
    (P_sat_arr pcrit).head? = some 700 ∧
    (P_sat_arr pcrit).getLast? = some (pcrit * 0.9995) ∧
    List.Pairwise (· < ·) (P_sat_arr pcrit) ∧
    r.hf.length = (P_sat_arr pcrit).length ∧
    r.sf.length = (P_sat_arr pcrit).length ∧
    r.hg.length = (P_sat_arr pcrit).length ∧
    r.sg.length = (P_sat_arr pcrit).length ∧
    List.Forall₂ (fun p x => B.H_PQ p 0 = some (1000 * x))
      (P_sat_arr pcrit) r.hf ∧
    List.Forall₂ (fun p x => B.S_PQ p 0 = some (1000 * x))
      (P_sat_arr pcrit) r.sf ∧
    List.Forall₂ (fun p x => B.H_PQ p 1 = some (1000 * x))
      (P_sat_arr pcrit) r.hg ∧
    List.Forall₂ (fun p x => B.S_PQ p 1 = some (1000 * x))
      (P_sat_arr pcrit) r.sg := by
  obtain ⟨h1, s1, d1, T1, dh2, h2, s2, T2, h3, s3, h4s, h4, s4, T4, pcritx,
    hfl, sfl, hgl, sgl, hq1, hq2, hq3, hd1, hq4, hep, hdh2, hh2, hq5, hq6,
    hq7, hq8, hq9, hh4, hq10, hq11, hq12, hm1, hm2, hm3, hm4, hbqne, hpw,
    hbq, htw, hcq, hnw, heta, hhf, hsf, hhg, hsg, hrest⟩ := steam_inv hs
  obtain rfl : pcrit = pcritx := by
    rw [hp] at hq12
    exact Option.some.inj hq12
  have himp : ∀ (q : ℚ → Option ℚ) (p y : ℚ),
      ((M.bind (query (q p)) fun x => M.pure (x / 1000)).1 = some y) →
        q p = some (1000 * y) := by
    intro q p y hy
    obtain ⟨x, hx, hpure⟩ := bind_fst hy
    have hxy := pure_fst_some hpure
    subst hxy
    have hxx : (1000 : ℚ) * (x / 1000) = x := by ring
    rw [hxx]
    exact hx
  have F1 := List.Forall₂.imp (himp (fun p => B.H_PQ p 0))
    (mmap_fst_forall2 hm1)
  have F2 := List.Forall₂.imp (himp (fun p => B.S_PQ p 0))
    (mmap_fst_forall2 hm2)
  have F3 := List.Forall₂.imp (himp (fun p => B.H_PQ p 1))
    (mmap_fst_forall2 hm3)
  have F4 := List.Forall₂.imp (himp (fun p => B.S_PQ p 1))
    (mmap_fst_forall2 hm4)
  refine ⟨linspace_head (by norm_num), linspace_getLast (by norm_num),
    linspace_pairwise hmono (by norm_num), ?_, ?_, ?_, ?_, ?_, ?_, ?_, ?_⟩
  · rw [hhf]
    exact F1.length_eq.symm
  · rw [hsf]
    exact F2.length_eq.symm
  · rw [hhg]
    exact F3.length_eq.symm
  · rw [hsg]
    exact F4.length_eq.symm
  · rw [hhf]
    exact F1
  · rw [hsf]
    exact F2
  · rw [hhg]
    exact F3
  · rw [hsg]
    exact F4

theorem c8_steam_isSome :
    ((calculate_steam_cycle domeProps 10 2000 350 85 85).1).isSome
      = true := by
  decide

theorem c8_witness :
    (P_sat_arr 1000000).head? = some 700 ∧
    (P_sat_arr 1000000).getLast? = some (1000000 * 0.9995) ∧
    List.Pairwise (· < ·) (P_sat_arr 1000000) ∧
    ((calculate_steam_cycle domeProps 10 2000 350 85 85).1.get
        c8_steam_isSome).hf.length = (P_sat_arr 1000000).length ∧
    List.Forall₂ (fun p x => domeProps.H_PQ p 0 = some (1000 * x))
      (P_sat_arr 1000000)
      ((calculate_steam_cycle domeProps 10 2000 350 85 85).1.get
        c8_steam_isSome).hf := by
  have h := c8_saturation_dome domeProps 10 2000 350 85 85 1000000 _
    (Option.some_get c8_steam_isSome).symm rfl (by norm_num)
  exact ⟨h.1, h.2.1, h.2.2.1, h.2.2.2.1, h.2.2.2.2.2.2.2.1⟩

theorem leg12_bounds {B : Props} {lg : ℚ → ℚ} {P1 P2 h1 h2 m : ℚ} {n : ℕ}
    {l : List (ℚ × ℚ)} {T1v T2v : ℚ} (hn : 2 ≤ n)
    (hl : (leg12 B lg P1 P2 h1 h2 m n).1 = some l)
    (hT1 : B.T_PH P1 h1 = some T1v) (hT2 : B.T_PH P2 h2 = some T2v) :
    l.head? = some (0, T1v - 273.15) ∧
    l.getLast? = some ((h2 - h1) * m / 1000, T2v - 273.15) := by
  have F := mmap_fst_forall2 hl
  constructor
  · obtain ⟨y, hy, hR⟩ := forall2_head F (linspace_head (by omega))
    obtain ⟨frac, hfrac, hrest⟩ := bind_fst hR
    obtain ⟨hD, hfe⟩ := qdiv_fst_some hfrac
    subst hfe
    have harg : h1 + (lg P1 - lg P1) / (lg P2 - lg P1) * (h2 - h1) = h1 := by
      rw [sub_self, zero_div, zero_mul, add_zero]
    rw [harg] at hrest
    obtain ⟨T, hT, hp⟩ := bind_fst hrest
    rw [hT1] at hT
    obtain rfl : T = T1v := (Option.some.inj hT).symm
    have hye := pure_fst_some hp
    subst hye
    rw [hy]
    have hz : (h1 - h1) * m / 1000 = 0 := by ring
    rw [hz]
  · obtain ⟨y, hy, hR⟩ := forall2_getLast F (linspace_getLast hn)
    obtain ⟨frac, hfrac, hrest⟩ := bind_fst hR
    obtain ⟨hD, hfe⟩ := qdiv_fst_some hfrac
    subst hfe
    have harg : h1 + (lg P2 - lg P1) / (lg P2 - lg P1) * (h2 - h1) = h2 := by
      rw [div_self hD, one_mul]
      ring
    rw [harg] at hrest
    obtain ⟨T, hT, hp⟩ := bind_fst hrest
    rw [hT2] at hT
    obtain rfl : T = T2v := (Option.some.inj hT).symm
    have hye := pure_fst_some hp
    subst hye
    rw [hy]

theorem leg23_bounds {B : Props} {P2 h1 m T2 T3 : ℚ} {n2 : ℕ}
    {l : List (ℚ × ℚ)} {hA hB : ℚ} (hn : 2 ≤ n2)
    (hl : (leg23 B P2 h1 m T2 T3 n2).1 = some l)
    (hH2 : B.H_PT P2 T2 = some hA) (hH3 : B.H_PT P2 T3 = some hB) :
    l.head? = some ((hA - h1) * m / 1000, T2 - 273.15) ∧
    l.getLast? = some ((hB - h1) * m / 1000, T3 - 273.15) := by
  have F := mmap_fst_forall2 hl
  constructor
  · obtain ⟨y, hy, hR⟩ := forall2_head F (linspace_head (by omega))
    obtain ⟨hi, hq, hp⟩ := bind_fst hR
    rw [hH2] at hq
    obtain rfl : hi = hA := (Option.some.inj hq).symm
    have hye := pure_fst_some hp
    subst hye
    rw [hy]
  · obtain ⟨y, hy, hR⟩ := forall2_getLast F (linspace_getLast hn)
    obtain ⟨hi, hq, hp⟩ := bind_fst hR
    rw [hH3] at hq
    obtain rfl : hi = hB := (Option.some.inj hq).symm
    have hye := pure_fst_some hp
    subst hye
    rw [hy]

theorem leg34_bounds {B : Props} {lg : ℚ → ℚ} {P1 P2 h1 h3 h4 m : ℚ}
    {n : ℕ} {l : List (ℚ × ℚ)} {T3v T4v : ℚ} (hn : 2 ≤ n)
    (hl : (leg34 B lg P1 P2 h1 h3 h4 m n).1 = some l)
    (hT3 : B.T_PH P2 h3 = some T3v) (hT4 : B.T_PH P1 h4 = some T4v) :
    l.head? = some ((h3 - h1) * m / 1000, T3v - 273.15) ∧
    l.getLast? = some ((h4 - h1) * m / 1000, T4v - 273.15) := by
  have F := mmap_fst_forall2 hl
  constructor
  · obtain ⟨y, hy, hR⟩ := forall2_head F (linspace_head (by omega))
    obtain ⟨frac, hfrac, hrest⟩ := bind_fst hR
    obtain ⟨hD, hfe⟩ := qdiv_fst_some hfrac
    subst hfe
    have harg : h3 - (lg P2 - lg P2) / (lg P2 - lg P1) * (h3 - h4) = h3 := by
      rw [sub_self, zero_div, zero_mul, sub_zero]
    rw [harg] at hrest
    obtain ⟨T, hT, hp⟩ := bind_fst hrest
    rw [hT3] at hT
    obtain rfl : T = T3v := (Option.some.inj hT).symm
    have hye := pure_fst_some hp
    subst hye
    rw [hy]
  · obtain ⟨y, hy, hR⟩ := forall2_getLast F (linspace_getLast hn)
    obtain ⟨frac, hfrac, hrest⟩ := bind_fst hR
    obtain ⟨hD, hfe⟩ := qdiv_fst_some hfrac
    subst hfe
    have harg : h3 - (lg P2 - lg P1) / (lg P2 - lg P1) * (h3 - h4) = h4 := by
      rw [div_self hD, one_mul]
      ring
    rw [harg] at hrest
    obtain ⟨T, hT, hp⟩ := bind_fst hrest
    rw [hT4] at hT
    obtain rfl : T = T4v := (Option.some.inj hT).symm
    have hye := pure_fst_some hp
    subst hye
    rw [hy]

theorem leg41_bounds {B : Props} {P1 h1 m T4 T1 : ℚ} {n : ℕ}
    {l : List (ℚ × ℚ)} {hC hD : ℚ} (hn : 2 ≤ n)
    (hl : (leg41 B P1 h1 m T4 T1 n).1 = some l)
    (hH4 : B.H_PT P1 T4 = some hC) (hH1 : B.H_PT P1 T1 = some hD) :
    l.head? = some ((hC - h1) * m / 1000, T4 - 273.15) ∧
    l.getLast? = some ((hD - h1) * m / 1000, T1 - 273.15) := by
  have F := mmap_fst_forall2 hl
  constructor
  · obtain ⟨y, hy, hR⟩ := forall2_head F (linspace_head (by omega))
    obtain ⟨hi, hq, hp⟩ := bind_fst hR
    rw [hH4] at hq
    obtain rfl : hi = hC := (Option.some.inj hq).symm
    have hye := pure_fst_some hp
    subst hye
    rw [hy]
  · obtain ⟨y, hy, hR⟩ := forall2_getLast F (linspace_getLast hn)
    obtain ⟨hi, hq, hp⟩ := bind_fst hR
    rw [hH1] at hq
    obtain rfl : hi = hD := (Option.some.inj hq).symm
    have hye := pure_fst_some hp
    subst hye
    rw [hy]

/-- C2: against an equation-of-state-consistent backend, for each of the
four Brayton process legs and any sample counts of at least 2 the first
sampled (cumulative-enthalpy-rate, temperature) point equals the leg's
start state and the last sampled point equals its end state, exactly
matching the corresponding entries of the cycle's state-point arrays
`h_states` and `T_states`. -/
theorem c2_leg_boundary_exactness (B : Props) (lg : ℚ → ℚ) (n n2 : ℕ)
    (pr T1C T3C ec2 et2 m : ℚ) (r : GasResult)
    (hcons : Consistent B) (hn : 2 ≤ n) (hn2 : 2 ≤ n2)
    (hr : (calculate_gas_cycle_THdot B lg n n2 pr T1C T3C ec2 et2 m).1
      = some r) :
    r.HT12.head? = some (r.h_states.getD 0 0, r.T_states.getD 0 0) ∧
    r.HT12.getLast? = some (r.h_states.getD 1 0, r.T_states.getD 1 0) ∧
    r.HT23.head? = some (r.h_states.getD 1 0, r.T_states.getD 1 0) ∧
    r.HT23.getLast? = some (r.h_states.getD 2 0, r.T_states.getD 2 0) ∧
    r.HT34.head? = some (r.h_states.getD 2 0, r.T_states.getD 2 0) ∧
    r.HT34.getLast? = some (r.h_states.getD 3 0, r.T_states.getD 3 0) ∧
    r.HT41.head? = some (r.h_states.getD 3 0, r.T_states.getD 3 0) ∧
    r.HT41.getLast? = some (r.h_states.getD 0 0, r.T_states.getD 0 0) := by
  obtain ⟨h1, s1, h2s, dh, h2, T2, s2, h3, s3, h4s, h4, T4, s4,
    l12, l23, l34, l41, gq1, gq2, gq3, gec, gdhe, gh2, gq4, gq5, gq6, gq7,
    gq8, gh4, gq9, gq10, gl12, gl23, gl34, gl41, gtwne, ghine, gHT12,
    gHT23, gHT34, gHT41, gcomp, gheat, gturb, gnet, gbwr, geta, ghst,
    gTst, gTC, gPk, ghk, gsk⟩ := gas_inv hr
  have hT1 : B.T_PH 101325 h1 = some (T1C + 273.15) := hcons.1 _ _ _ gq1
  have hT3 : B.T_PH (101325 * pr) h3 = some (T3C + 273.15) := hcons.1 _ _ _ gq6
  have hH2 : B.H_PT (101325 * pr) T2 = some h2 := hcons.2 _ _ _ gq4
  have hH4 : B.H_PT 101325 T4 = some h4 := hcons.2 _ _ _ gq9
  obtain ⟨h12a, h12b⟩ := leg12_bounds hn gl12 hT1 gq4
  obtain ⟨h23a, h23b⟩ := leg23_bounds hn2 gl23 hH2 gq6
  obtain ⟨h34a, h34b⟩ := leg34_bounds hn gl34 hT3 gq9
  obtain ⟨h41a, h41b⟩ := leg41_bounds hn gl41 hH4 gq1
  rw [gHT12, gHT23, gHT34, gHT41, ghst, gTst]
  simp only [List.getD_cons_succ, List.getD_cons_zero]
  have e1 : T1C + 273.15 - 273.15 = T1C := by ring
  have e3 : T3C + 273.15 - 273.15 = T3C := by ring
  refine ⟨?_, ?_, ?_, ?_, ?_, ?_, ?_, ?_⟩
  · rw [h12a, e1]
  · rw [h12b]
  · rw [h23a]
  · rw [h23b, e3]
  · rw [h34a, e3]
  · rw [h34b]
  · rw [h41a]
  · rw [h41b, e1]
    have hz : (h1 - h1) * m / 1000 = 0 := by ring
    rw [hz]

theorem c2_gas_isSome :
    ((calculate_gas_cycle_THdot consProps id 2 2 2 25 1100 88 90 1).1).isSome
      = true := by
  decide

theorem c2_cons : Consistent consProps := by
  constructor
  · intro P T h hq
    obtain rfl : T = h := Option.some.inj hq
    rfl
  · intro P h T hq
    obtain rfl : h = T := Option.some.inj hq
    rfl

theorem c2_witness :
    ((calculate_gas_cycle_THdot consProps id 2 2 2 25 1100 88 90 1).1.get
        c2_gas_isSome).HT12.head? =
      some (((calculate_gas_cycle_THdot consProps id 2 2 2 25 1100 88 90
          1).1.get c2_gas_isSome).h_states.getD 0 0,
        ((calculate_gas_cycle_THdot consProps id 2 2 2 25 1100 88 90 1).1.get
          c2_gas_isSome).T_states.getD 0 0) ∧
    ((calculate_gas_cycle_THdot consProps id 2 2 2 25 1100 88 90 1).1.get
        c2_gas_isSome).HT41.getLast? =
      some (((calculate_gas_cycle_THdot consProps id 2 2 2 25 1100 88 90
          1).1.get c2_gas_isSome).h_states.getD 0 0,
        ((calculate_gas_cycle_THdot consProps id 2 2 2 25 1100 88 90 1).1.get
          c2_gas_isSome).T_states.getD 0 0) := by
  have h := c2_leg_boundary_exactness consProps id 2 2 2 25 1100 88 90 1 _
    c2_cons (by norm_num) (by norm_num) (Option.some_get c2_gas_isSome).symm
  exact ⟨h.1, h.2.2.2.2.2.2.2⟩

/-- C5 counterexample: the compression-leg pressures are sampled
linearly, not logarithmically.  With the backend `exposeProps`, whose
temperature-at-(P,H) query returns its pressure argument, the middle
sample of a 3-point compression leg from 101325 Pa to 405300 Pa reports
the pressure `506625/2` (the arithmetic mean), whereas the log-pressure
interpolation the claim describes would sample `202650` (the geometric
mean), a different value. -/
theorem c5_counterexample :
    ((calculate_gas_cycle_THdot exposeProps id 3 2 4 25 1100 100 100 1).1.map
      (fun r => r.HT12.getD 1 (0, 0))) =
      some (1 / 2000, 506625 / 2 - 273.15) ∧
    (logspaceSpec 101325 405300 3).getD 1 0 = 202650 ∧
    ((506625 / 2 : ℚ) : ℝ) ≠ 202650 := by
  refine ⟨by decide, ?_, by push_cast; norm_num⟩
  unfold logspaceSpec
  rw [show List.range 3 = [0, 1, 2] from rfl]
  simp only [List.map_cons, List.map_nil, List.getD_cons_succ,
    List.getD_cons_zero]
  have h1 : Real.log 405300 = Real.log 101325 + Real.log 4 := by
    rw [show (405300 : ℝ) = 101325 * 4 by norm_num,
      Real.log_mul (by norm_num) (by norm_num)]
  have h2 : Real.log 4 = 2 * Real.log 2 := by
    rw [show (4 : ℝ) = 2 ^ 2 by norm_num, Real.log_pow]
    norm_num
  rw [h1, h2]
  have h3 : Real.log 101325 + ((1 : ℕ) : ℝ) *
      (Real.log 101325 + 2 * Real.log 2 - Real.log 101325) / (((3 : ℕ) : ℝ) - 1)
      = Real.log 101325 + Real.log 2 := by
    push_cast
    ring
  rw [h3, Real.exp_add, Real.exp_log (by norm_num), Real.exp_log (by norm_num)]
  norm_num

/-- C5 amended: the Brayton compression leg samples its pressures
linearly (uniformly) between `P1` and `P2` — consecutive samples form an
arithmetic progression — while the fractional position used for the
enthalpy interpolation is the logarithmic pressure fraction of each
sample; enthalpy is interpolated linearly between the leg's endpoint
enthalpies at that fraction and temperature is queried from the backend
at each `(P_sample, h_sample)`; the expansion leg is symmetric, from
`P2` down to `P1` with enthalpy from `h3` down to `h4`. -/
theorem c5_leg_sampling (B : Props) (lg : ℚ → ℚ) (n n2 : ℕ)
    (pr T1C T3C ec2 et2 m : ℚ) (r : GasResult)
    (hr : (calculate_gas_cycle_THdot B lg n n2 pr T1C T3C ec2 et2 m).1
      = some r) :
    (∀ i : ℕ, i + 2 < n →
      (linspace 101325 (101325 * pr) n).getD i 0 +
        (linspace 101325 (101325 * pr) n).getD (i + 2) 0 =
      2 * (linspace 101325 (101325 * pr) n).getD (i + 1) 0) ∧
    ∃ h1 h2 h3 h4,
      r.h_kJ = [h1 / 1000, h2 / 1000, h3 / 1000, h4 / 1000] ∧
      List.Forall₂ (fun P_i y =>
        lg (101325 * pr) - lg 101325 ≠ 0 ∧ ∃ T_i,
          B.T_PH P_i (h1 + (lg P_i - lg 101325) /
            (lg (101325 * pr) - lg 101325) * (h2 - h1)) = some T_i ∧
          y = ((h1 + (lg P_i - lg 101325) / (lg (101325 * pr) - lg 101325) *
            (h2 - h1) - h1) * m / 1000, T_i - 273.15))
        (linspace 101325 (101325 * pr) n) r.HT12 ∧
      List.Forall₂ (fun P_i y =>
        lg (101325 * pr) - lg 101325 ≠ 0 ∧ ∃ T_i,
          B.T_PH P_i (h3 - (lg (101325 * pr) - lg P_i) /
            (lg (101325 * pr) - lg 101325) * (h3 - h4)) = some T_i ∧
          y = ((h3 - (lg (101325 * pr) - lg P_i) /
            (lg (101325 * pr) - lg 101325) * (h3 - h4) - h1) * m / 1000,
            T_i - 273.15))
        (linspace (101325 * pr) 101325 n) r.HT34 := by
  obtain ⟨h1, s1, h2s, dh, h2, T2, s2, h3, s3, h4s, h4, T4, s4,
    l12, l23, l34, l41, gq1, gq2, gq3, gec, gdhe, gh2, gq4, gq5, gq6, gq7,
    gq8, gh4, gq9, gq10, gl12, gl23, gl34, gl41, gtwne, ghine, gHT12,
    gHT23, gHT34, gHT41, gcomp, gheat, gturb, gnet, gbwr, geta, ghst,
    gTst, gTC, gPk, ghk, gsk⟩ := gas_inv hr
  constructor
  · intro i hi
    rw [linspace_getD (by omega), linspace_getD (by omega),
      linspace_getD (by omega)]
    push_cast
    ring
  · refine ⟨h1, h2, h3, h4, ghk, ?_, ?_⟩
    · rw [gHT12]
      refine List.Forall₂.imp ?_ (mmap_fst_forall2 gl12)
      intro P_i y hy
      obtain ⟨frac, hfrac, hrest⟩ := bind_fst hy
      obtain ⟨hD, hfe⟩ := qdiv_fst_some hfrac
      subst hfe
      obtain ⟨T_i, hT, hp⟩ := bind_fst hrest
      have hye := pure_fst_some hp
      subst hye
      exact ⟨hD, T_i, hT, rfl⟩
    · rw [gHT34]
      refine List.Forall₂.imp ?_ (mmap_fst_forall2 gl34)
      intro P_i y hy
      obtain ⟨frac, hfrac, hrest⟩ := bind_fst hy
      obtain ⟨hD, hfe⟩ := qdiv_fst_some hfrac
      subst hfe
      obtain ⟨T_i, hT, hp⟩ := bind_fst hrest
      have hye := pure_fst_some hp
      subst hye
      exact ⟨hD, T_i, hT, rfl⟩

theorem c5_gas_isSome :
    ((calculate_gas_cycle_THdot consProps id 3 2 2 25 1100 88 90 1).1).isSome
      = true := by
  decide

theorem c5_witness :
    (calculate_gas_cycle_THdot consProps id 3 2 2 25 1100 88 90 1).1 =
      some ((calculate_gas_cycle_THdot consProps id 3 2 2 25 1100 88 90
        1).1.get c5_gas_isSome) ∧
    (∀ i : ℕ, i + 2 < 3 →
      (linspace 101325 (101325 * 2) 3).getD i 0 +
        (linspace 101325 (101325 * 2) 3).getD (i + 2) 0 =
      2 * (linspace 101325 (101325 * 2) 3).getD (i + 1) 0) := by
  have h := c5_leg_sampling consProps id 3 2 2 25 1100 88 90 1 _
    (Option.some_get c5_gas_isSome).symm
  exact ⟨(Option.some_get c5_gas_isSome).symm, h.1⟩

end AdHtc
